import Mathlib

/-! # go-ipmi command codecs: a shallow embedding

Bytes (`uint8`) are natural numbers below 256; byte buffers (`[]byte`) are
`List Nat`.  Every place where the Go code computes in `uint8` and can leave the
range carries an explicit `% 256`.  A Go method with a pointer receiver that
mutates the receiver and returns `error` becomes a function from the old
receiver to the pair (new receiver, optional error).
-/

namespace ipmi

/-! ## Errors -/

/-- Decode errors produced by the codecs under study. -/
inductive Error where
  /-- the buffer is shorter than the command needs: actual and required length -/
  | UnpackedDataTooShort (actual : Nat) (expected : Nat)
  /-- the leading group-extension byte is not the expected one: expected and received tag -/
  | GroupExtensionNotMatched (expected : Nat) (actual : Nat)
  deriving DecidableEq, Repr

/-- Modelled from the spec: `ErrUnpackedDataTooShortWith` is not part of the sources.
The spec asks for a "too short" error "reporting both actual and minimum-required
length". -/
def ErrUnpackedDataTooShortWith (actual : Nat) (expected : Nat) : Error :=
  Error.UnpackedDataTooShort actual expected

/-- Modelled from the spec: `CheckDCMIGroupExenstionMatch` is not part of the sources.
The spec: the leading byte "must match an expected constant; mismatch is a decode
error, not a silent skip".  The constant `GroupExtensionDCMI` is not part of the
sources either and is a parameter. -/
def CheckDCMIGroupExenstionMatch (GroupExtensionDCMI : Nat) (grpExt : Nat) : Option Error :=
  if grpExt ≠ GroupExtensionDCMI then
    some (Error.GroupExtensionNotMatched GroupExtensionDCMI grpExt)
  else
    none

/-! ## Field codec helpers -/

/-- Modelled from the spec: the bit helpers `isBit0Set` .. `isBit7Set` are not part of
the sources.  The spec: "test ... an individual bit (0–7) within a single byte", with
"bit positions within a byte numbered 0 (least significant) to 7 (most significant)". -/
def isBit0Set (b : Nat) : Bool := Nat.testBit b 0

/-- Modelled from the spec: see `isBit0Set`. -/
def isBit1Set (b : Nat) : Bool := Nat.testBit b 1

/-- Modelled from the spec: see `isBit0Set`. -/
def isBit2Set (b : Nat) : Bool := Nat.testBit b 2

/-- Modelled from the spec: see `isBit0Set`. -/
def isBit3Set (b : Nat) : Bool := Nat.testBit b 3

/-- Modelled from the spec: see `isBit0Set`. -/
def isBit4Set (b : Nat) : Bool := Nat.testBit b 4

/-- Modelled from the spec: see `isBit0Set`. -/
def isBit5Set (b : Nat) : Bool := Nat.testBit b 5

/-- Modelled from the spec: see `isBit0Set`. -/
def isBit6Set (b : Nat) : Bool := Nat.testBit b 6

/-- Modelled from the spec: see `isBit0Set`. -/
def isBit7Set (b : Nat) : Bool := Nat.testBit b 7

/-- Modelled from the spec: `setBit7` is not part of the sources.  The spec: "set ... an
individual bit (0–7) within a single byte"; bit 7 is the most significant one. -/
def setBit7 (b : Nat) : Nat := b ||| 0x80

/-- Modelled from the spec: `clearBit7` is not part of the sources.  The spec: "clear an
individual bit (0–7) within a single byte"; bit 7 is the most significant one. -/
def clearBit7 (b : Nat) : Nat := b &&& 0x7f

/-- Modelled from the spec: `packUint8` is not part of the sources.  The spec: "pack ...
fixed-width unsigned integers ... at a given byte offset into ... a mutable byte buffer".
The buffer after the write is returned. -/
def packUint8 (i : Nat) (msg : List Nat) (off : Nat) : List Nat :=
  msg.set off i

/-- Modelled from the spec: `packBytes` is not part of the sources.  The spec: "pack ... an
arbitrary-length byte range" at a given byte offset into a mutable byte buffer.  As many
bytes of `v` as fit behind `off` are written; the buffer after the write is returned. -/
def packBytes (v : List Nat) (msg : List Nat) (off : Nat) : List Nat :=
  let n := min v.length (msg.length - off)
  msg.take off ++ v.take n ++ msg.drop (off + n)

/-- Modelled from the spec: `unpackUint8` is not part of the sources.  The spec: "unpack
fixed-width unsigned integers ... at a given byte offset ... from a ... byte buffer", where
"all unpack operations validate that the buffer is at least as long as required and fail
with a too short error".  Returns the value, the offset behind it, and the error. -/
def unpackUint8 (msg : List Nat) (off : Nat) : Nat × Nat × Option Error :=
  if msg.length < off + 1 then
    (0, msg.length, some (ErrUnpackedDataTooShortWith msg.length (off + 1)))
  else
    (msg.getD off 0, off + 1, none)

/-- Modelled from the spec: `unpackBytes` is not part of the sources.  The spec: "unpack an
arbitrary-length byte range", with the same length validation as `unpackUint8`.  Returns
the bytes, the offset behind them, and the error. -/
def unpackBytes (msg : List Nat) (off : Nat) (length : Nat) : List Nat × Nat × Option Error :=
  if msg.length < off + length then
    ([], off, some (ErrUnpackedDataTooShortWith msg.length (off + length)))
  else
    ((msg.drop off).take length, off + length, none)

/-! ## Get Payload Activation Status -/

/-- Source: `GetPayloadActivationStatusRequest`. -/
structure GetPayloadActivationStatusRequest where
  PayloadType : Nat
  deriving DecidableEq, Repr

/-- Source: `GetPayloadActivationStatusResponse`. -/
structure GetPayloadActivationStatusResponse where
  InstanceCapacity : Nat
  Instance01Activated : Bool
  Instance02Activated : Bool
  Instance03Activated : Bool
  Instance04Activated : Bool
  Instance05Activated : Bool
  Instance06Activated : Bool
  Instance07Activated : Bool
  Instance08Activated : Bool
  Instance09Activated : Bool
  Instance10Activated : Bool
  Instance11Activated : Bool
  Instance12Activated : Bool
  Instance13Activated : Bool
  Instance14Activated : Bool
  Instance15Activated : Bool
  Instance16Activated : Bool
  PayloadType : Nat
  deriving DecidableEq, Repr

/-- Source: `GetPayloadActivationStatusRequest.Pack`, `[]byte{byte(req.PayloadType)}`. -/
def GetPayloadActivationStatusRequest.Pack (req : GetPayloadActivationStatusRequest) : List Nat :=
  [req.PayloadType % 256]

/-- Source: `GetPayloadActivationStatusResponse.Unpack`.  `msg[i]` is `msg.getD i 0`:
the length guard comes first, so the default is never used.  `msg[0] + 1` is a `uint8`
addition. -/
def GetPayloadActivationStatusResponse.Unpack (res : GetPayloadActivationStatusResponse)
    (msg : List Nat) : GetPayloadActivationStatusResponse × Option Error :=
  if msg.length < 3 then
    (res, some (ErrUnpackedDataTooShortWith msg.length 3))
  else
    let res := { res with InstanceCapacity := (msg.getD 0 0 + 1) % 256 }
    let res := { res with Instance01Activated := isBit0Set (msg.getD 1 0) }
    let res := { res with Instance02Activated := isBit1Set (msg.getD 1 0) }
    let res := { res with Instance03Activated := isBit2Set (msg.getD 1 0) }
    let res := { res with Instance04Activated := isBit3Set (msg.getD 1 0) }
    let res := { res with Instance05Activated := isBit4Set (msg.getD 1 0) }
    let res := { res with Instance06Activated := isBit5Set (msg.getD 1 0) }
    let res := { res with Instance07Activated := isBit6Set (msg.getD 1 0) }
    let res := { res with Instance08Activated := isBit7Set (msg.getD 1 0) }
    let res := { res with Instance09Activated := isBit0Set (msg.getD 2 0) }
    let res := { res with Instance10Activated := isBit1Set (msg.getD 2 0) }
    let res := { res with Instance11Activated := isBit2Set (msg.getD 2 0) }
    let res := { res with Instance12Activated := isBit3Set (msg.getD 2 0) }
    let res := { res with Instance13Activated := isBit4Set (msg.getD 2 0) }
    let res := { res with Instance14Activated := isBit5Set (msg.getD 2 0) }
    let res := { res with Instance15Activated := isBit6Set (msg.getD 2 0) }
    let res := { res with Instance16Activated := isBit7Set (msg.getD 2 0) }
    (res, none)

/-- The flag `Instance<k>Activated` of a response, for `k` from 1 to 16 (`false` for any
other `k`). -/
def GetPayloadActivationStatusResponse.InstanceActivated
    (res : GetPayloadActivationStatusResponse) (k : Nat) : Bool :=
  match k with
  | 1 => res.Instance01Activated
  | 2 => res.Instance02Activated
  | 3 => res.Instance03Activated
  | 4 => res.Instance04Activated
  | 5 => res.Instance05Activated
  | 6 => res.Instance06Activated
  | 7 => res.Instance07Activated
  | 8 => res.Instance08Activated
  | 9 => res.Instance09Activated
  | 10 => res.Instance10Activated
  | 11 => res.Instance11Activated
  | 12 => res.Instance12Activated
  | 13 => res.Instance13Activated
  | 14 => res.Instance14Activated
  | 15 => res.Instance15Activated
  | 16 => res.Instance16Activated
  | _ => false

/-- The sixteen instance flags of a response, instance 1 first. -/
def GetPayloadActivationStatusResponse.flags
    (res : GetPayloadActivationStatusResponse) : List Bool :=
  [res.Instance01Activated, res.Instance02Activated, res.Instance03Activated,
   res.Instance04Activated, res.Instance05Activated, res.Instance06Activated,
   res.Instance07Activated, res.Instance08Activated, res.Instance09Activated,
   res.Instance10Activated, res.Instance11Activated, res.Instance12Activated,
   res.Instance13Activated, res.Instance14Activated, res.Instance15Activated,
   res.Instance16Activated]

/-- The Go zero value `GetPayloadActivationStatusResponse{}`. -/
def GetPayloadActivationStatusResponse.zero : GetPayloadActivationStatusResponse :=
  { InstanceCapacity := 0
    Instance01Activated := false
    Instance02Activated := false
    Instance03Activated := false
    Instance04Activated := false
    Instance05Activated := false
    Instance06Activated := false
    Instance07Activated := false
    Instance08Activated := false
    Instance09Activated := false
    Instance10Activated := false
    Instance11Activated := false
    Instance12Activated := false
    Instance13Activated := false
    Instance14Activated := false
    Instance15Activated := false
    Instance16Activated := false
    PayloadType := 0 }

/-! ## Get DCMI Configuration Parameters -/

/-- Source: `GetDCMIConfigParamsRequest`. -/
structure GetDCMIConfigParamsRequest where
  ParamSelector : Nat
  SetSelector : Nat
  deriving DecidableEq, Repr

/-- Source: `GetDCMIConfigParamsResponse`. -/
structure GetDCMIConfigParamsResponse where
  MajorVersion : Nat
  MinorVersion : Nat
  ParamRevision : Nat
  ParamData : List Nat
  deriving DecidableEq, Repr

/-- The Go zero value `GetDCMIConfigParamsResponse{}`. -/
def GetDCMIConfigParamsResponse.zero : GetDCMIConfigParamsResponse :=
  { MajorVersion := 0, MinorVersion := 0, ParamRevision := 0, ParamData := [] }

/-- Source: `GetDCMIConfigParamsRequest.Pack`.  `make([]byte, 3)` is three zero bytes;
`uint8(req.ParamSelector)` is `req.ParamSelector % 256`.  The constant
`GroupExtensionDCMI` is not part of the sources and is a parameter. -/
def GetDCMIConfigParamsRequest.Pack (GroupExtensionDCMI : Nat)
    (req : GetDCMIConfigParamsRequest) : List Nat :=
  let out := List.replicate 3 0
  let out := packUint8 GroupExtensionDCMI out 0
  let out := packUint8 (req.ParamSelector % 256) out 1
  let out := packUint8 req.SetSelector out 2
  out

/-- Source: `GetDCMIConfigParamsResponse.Unpack`.  The values returned by the field
helpers behind the first one are dropped, as in the source (`_, _`). -/
def GetDCMIConfigParamsResponse.Unpack (GroupExtensionDCMI : Nat)
    (res : GetDCMIConfigParamsResponse) (msg : List Nat) :
    GetDCMIConfigParamsResponse × Option Error :=
  if msg.length < 5 then
    (res, some (ErrUnpackedDataTooShortWith msg.length 5))
  else
    match CheckDCMIGroupExenstionMatch GroupExtensionDCMI (msg.getD 0 0) with
    | some err => (res, some err)
    | none =>
      let res := { res with MajorVersion := (unpackUint8 msg 1).1 }
      let res := { res with MinorVersion := (unpackUint8 msg 2).1 }
      let res := { res with ParamRevision := (unpackUint8 msg 3).1 }
      let res := { res with ParamData := (unpackBytes msg 4 (msg.length - 4)).1 }
      (res, none)

/-! ## Set System Boot Options -/

/-- Source: `SetSystemBootOptionsRequest`.  The declaration of the Go type
`BootOptionParameter` is not part of the sources: the request is generic in the type `P`
of its parameter. -/
structure SetSystemBootOptionsRequest (P : Type) where
  MarkParameterInvalid : Bool
  ParameterSelector : Nat
  BootOptionParameter : P

/-- Source: `SetSystemBootOptionsRequest.Pack`.  The method `BootOptionParameter.Pack` is
not part of the sources and is the parameter `packParam`.
`uint8(req.ParameterSelector)` is `req.ParameterSelector % 256`. -/
def SetSystemBootOptionsRequest.Pack {P : Type} (packParam : P → Nat → List Nat)
    (req : SetSystemBootOptionsRequest P) : List Nat :=
  let parameterData := packParam req.BootOptionParameter req.ParameterSelector
  let out := List.replicate (1 + parameterData.length) 0
  let b := req.ParameterSelector % 256
  let b := if req.MarkParameterInvalid then setBit7 b else clearBit7 b
  let out := packUint8 b out 0
  let out := packBytes parameterData out 1
  out

/-- Modelled from the spec: the declaration of `BOP_BootFlags` is not part of the sources.
The spec names "validity flag", "persistence", "BIOS boot type" and "device selector";
these are the four fields that `SetBootDevice` fills in. -/
structure BOP_BootFlags where
  BootFlagsValid : Bool
  Persist : Bool
  BIOSBootType : Nat
  BootDeviceSelector : Nat
  deriving DecidableEq, Repr

/-- Modelled from the spec: the declaration of `BootOptionParameter` is not part of the
sources.  The spec: "a tagged union keyed by a selector value".  Only the boot-flags arm,
the one `SetBootDevice` fills in, is represented; `none` is the Go `nil` pointer. -/
structure BootOptionParameter where
  BootFlags : Option BOP_BootFlags
  deriving DecidableEq, Repr

/-- Source: the request literal built by `Client.SetBootDevice` and handed to
`SetSystemBootOptions`.  The constant `BOPS_BootFlags` is not part of the sources and is a
parameter. -/
def Client.SetBootDevice.req (BOPS_BootFlags : Nat) (bootDeviceSelector : Nat)
    (bootType : Nat) (persist : Bool) : SetSystemBootOptionsRequest BootOptionParameter :=
  { MarkParameterInvalid := false
    ParameterSelector := BOPS_BootFlags
    BootOptionParameter :=
      { BootFlags := some
          { BootFlagsValid := true
            Persist := persist
            BIOSBootType := bootType
            BootDeviceSelector := bootDeviceSelector } } }

/-! ## Client operations

The transport (`Client.Exchange`) is not part of the sources and is a parameter of every
client operation.  A call `c.Exchange(ctx, request, response)` may change the state of
the transport and the response it is given, and returns a Go `error`: it is a function
from (transport state, request, response) to (transport state, response, error). -/

/-- Go `error` values seen by the client operations. -/
inductive GoError where
  /-- an error returned by an `Unpack` method of a response of this core -/
  | codec (e : Error)
  /-- an error value created outside of this core (transport, decoder of a parameter arm),
  identified by a number -/
  | external (id : Nat)
  /-- the value of `fmt.Errorf(format, name, number, err)` where `format` has the verbs
  `%s`, `%d`, `%w` in this order: it carries `name` and `number` and wraps `err` -/
  | ErrorfW (format : String) (name : String) (number : Nat) (err : GoError)
  /-- the value of `fmt.Errorf(format, err)` where `format` has the single verb `%s`:
  `err` is used for its text only and is not wrapped -/
  | ErrorfS (format : String) (err : GoError)
  deriving DecidableEq, Repr

/-- Go `errors.Unwrap`: the error wrapped by a `%w` verb, if any. -/
def GoError.Unwrap (e : GoError) : Option GoError :=
  match e with
  | GoError.ErrorfW _ _ _ err => some err
  | _ => none

/-- The type of `Client.Exchange` at a request type `Req` and a response type `Res`, over
a transport state `σ`. -/
abbrev ExchangeFn (σ : Type) (Req : Type) (Res : Type) : Type :=
  σ → Req → Res → σ × Res × Option GoError

/-- Source: `Client.GetDCMIConfigParams`. -/
def Client.GetDCMIConfigParams {σ : Type}
    (Exchange : ExchangeFn σ GetDCMIConfigParamsRequest GetDCMIConfigParamsResponse)
    (s : σ) (paramSelector : Nat) (setSelector : Nat) :
    σ × GetDCMIConfigParamsResponse × Option GoError :=
  let request : GetDCMIConfigParamsRequest :=
    { ParamSelector := paramSelector, SetSelector := setSelector }
  let response := GetDCMIConfigParamsResponse.zero
  Exchange s request response

/-- Modelled from the spec: the interface `DCMIConfigParameter` and the parameter types
implementing it are not part of the sources.  The spec: each arm of the variant parameter
"owns its own field layout" and is decoded from "the raw payload bytes"; the selector
"is supplied out-of-band".  An arm type `α` is given by its Go zero value and the two
methods that `GetDCMIConfigParamsFor` calls. -/
structure DCMIConfigParameter (α : Type) where
  zero : α
  DCMIConfigParameter : α → Nat × Nat
  Unpack : α → List Nat → α × Option GoError

/-- The format string of the error built by `GetDCMIConfigParamsFor`. -/
def unpackParamFailedFormat : String := "unpack param (%s[%d]) failed, err: %w"

/-- Source: `Client.GetDCMIConfigParamsFor`.  `selectorString` stands for the method
`DCMIConfigParamSelector.String`, which is not part of the sources.  The parameter is
passed by pointer: its value after the call is returned. -/
def Client.GetDCMIConfigParamsFor {σ : Type} {α : Type}
    (Exchange : ExchangeFn σ GetDCMIConfigParamsRequest GetDCMIConfigParamsResponse)
    (selectorString : Nat → String) (I : DCMIConfigParameter α) (s : σ) (param : α) :
    σ × α × Option GoError :=
  let paramSelector := (I.DCMIConfigParameter param).1
  let setSelector := (I.DCMIConfigParameter param).2
  let request : GetDCMIConfigParamsRequest :=
    { ParamSelector := paramSelector, SetSelector := setSelector }
  let response := GetDCMIConfigParamsResponse.zero
  let r := Exchange s request response
  match r.2.2 with
  | some err => (r.1, param, some err)
  | none =>
    let u := I.Unpack param r.2.1.ParamData
    match u.2 with
    | some err =>
      (r.1, u.1, some (GoError.ErrorfW unpackParamFailedFormat
        (selectorString paramSelector) paramSelector err))
    | none => (r.1, u.1, none)

/-- Modelled from the spec: the declaration of `DCMIConfig` is not part of the sources.
The spec: "one composite configuration value" of the "DHCP activation flag, discovery
configuration, three DHCP timing parameters"; the five fields are those that
`GetDCMIConfigurations` assigns. -/
structure DCMIConfig (A : Type) (B : Type) (C : Type) (D : Type) (E : Type) where
  ActivateDHCP : A
  DiscoveryConfiguration : B
  DHCPTiming1 : C
  DHCPTiming2 : D
  DHCPTiming3 : E

/-- The five parameter types used by `GetDCMIConfigurations`
(`DCMIConfigParam_ActivateDHCP`, `DCMIConfigParam_DiscoveryConfiguration`,
`DCMIConfigParam_DHCPTiming1`, `DCMIConfigParam_DHCPTiming2`,
`DCMIConfigParam_DHCPTiming3`), not part of the sources, as implementations of
`DCMIConfigParameter`. -/
structure DCMIConfigArms (A : Type) (B : Type) (C : Type) (D : Type) (E : Type) where
  ActivateDHCP : DCMIConfigParameter A
  DiscoveryConfiguration : DCMIConfigParameter B
  DHCPTiming1 : DCMIConfigParameter C
  DHCPTiming2 : DCMIConfigParameter D
  DHCPTiming3 : DCMIConfigParameter E

/-- Source: `Client.GetDCMIConfigurations`.  The result pointer is `none` for `nil`. -/
def Client.GetDCMIConfigurations {σ : Type} {A : Type} {B : Type} {C : Type} {D : Type}
    {E : Type}
    (Exchange : ExchangeFn σ GetDCMIConfigParamsRequest GetDCMIConfigParamsResponse)
    (selectorString : Nat → String) (arms : DCMIConfigArms A B C D E) (s : σ) :
    σ × Option (DCMIConfig A B C D E) × Option GoError :=
  let dcmiConfig : DCMIConfig A B C D E :=
    { ActivateDHCP := arms.ActivateDHCP.zero
      DiscoveryConfiguration := arms.DiscoveryConfiguration.zero
      DHCPTiming1 := arms.DHCPTiming1.zero
      DHCPTiming2 := arms.DHCPTiming2.zero
      DHCPTiming3 := arms.DHCPTiming3.zero }
  let r1 := Client.GetDCMIConfigParamsFor Exchange selectorString arms.ActivateDHCP s
    arms.ActivateDHCP.zero
  match r1.2.2 with
  | some err => (r1.1, none, some err)
  | none =>
    let dcmiConfig := { dcmiConfig with ActivateDHCP := r1.2.1 }
    let r2 := Client.GetDCMIConfigParamsFor Exchange selectorString
      arms.DiscoveryConfiguration r1.1 arms.DiscoveryConfiguration.zero
    match r2.2.2 with
    | some err => (r2.1, none, some err)
    | none =>
      let dcmiConfig := { dcmiConfig with DiscoveryConfiguration := r2.2.1 }
      let r3 := Client.GetDCMIConfigParamsFor Exchange selectorString arms.DHCPTiming1 r2.1
        arms.DHCPTiming1.zero
      match r3.2.2 with
      | some err => (r3.1, none, some err)
      | none =>
        let dcmiConfig := { dcmiConfig with DHCPTiming1 := r3.2.1 }
        let r4 := Client.GetDCMIConfigParamsFor Exchange selectorString arms.DHCPTiming2
          r3.1 arms.DHCPTiming2.zero
        match r4.2.2 with
        | some err => (r4.1, none, some err)
        | none =>
          let dcmiConfig := { dcmiConfig with DHCPTiming2 := r4.2.1 }
          let r5 := Client.GetDCMIConfigParamsFor Exchange selectorString arms.DHCPTiming3
            r4.1 arms.DHCPTiming3.zero
          match r5.2.2 with
          | some err => (r5.1, none, some err)
          | none =>
            let dcmiConfig := { dcmiConfig with DHCPTiming3 := r5.2.1 }
            (r5.1, some dcmiConfig, none)

/-- Source: `Client.GetPayloadActivationStatus`. -/
def Client.GetPayloadActivationStatus {σ : Type}
    (Exchange : ExchangeFn σ GetPayloadActivationStatusRequest
      GetPayloadActivationStatusResponse)
    (s : σ) (payloadType : Nat) : σ × GetPayloadActivationStatusResponse × Option GoError :=
  let request : GetPayloadActivationStatusRequest := { PayloadType := payloadType }
  let response := GetPayloadActivationStatusResponse.zero
  let response := { response with PayloadType := request.PayloadType }
  Exchange s request response

/-- Source: `SetSystemBootOptionsResponse`, a struct without fields. -/
structure SetSystemBootOptionsResponse where
  deriving DecidableEq, Repr

/-- Source: `SetSystemBootOptionsResponse.Unpack`. -/
def SetSystemBootOptionsResponse.Unpack (res : SetSystemBootOptionsResponse)
    (_msg : List Nat) : SetSystemBootOptionsResponse × Option Error :=
  (res, none)

/-- Source: `Client.SetSystemBootOptions`. -/
def Client.SetSystemBootOptions {σ : Type} {P : Type}
    (Exchange : ExchangeFn σ (SetSystemBootOptionsRequest P) SetSystemBootOptionsResponse)
    (s : σ) (request : SetSystemBootOptionsRequest P) :
    σ × SetSystemBootOptionsResponse × Option GoError :=
  let response : SetSystemBootOptionsResponse := {}
  Exchange s request response

/-- The format string of the error built by `SetBootDevice`. -/
def setSystemBootOptionsFailedFormat : String := "SetSystemBootOptions failed, err: %s"

/-- Source: `Client.SetBootDevice`. -/
def Client.SetBootDevice {σ : Type}
    (Exchange : ExchangeFn σ (SetSystemBootOptionsRequest BootOptionParameter)
      SetSystemBootOptionsResponse)
    (BOPS_BootFlags : Nat) (s : σ) (bootDeviceSelector : Nat) (bootType : Nat)
    (persist : Bool) : σ × Option GoError :=
  let req := Client.SetBootDevice.req BOPS_BootFlags bootDeviceSelector bootType persist
  let r := Client.SetSystemBootOptions Exchange s req
  match r.2.2 with
  | some err => (r.1, some (GoError.ErrorfS setSystemBootOptionsFailedFormat err))
  | none => (r.1, none)

/-! ## Completion-code tables -/

/-- Go `map[uint8]string` literals are association lists in source order; the lookup
`m[code]` with its `ok` flag is `List.lookup code m`. -/
abbrev CompletionCodeTable : Type := List (Nat × String)

/-- Source: `SetSystemBootOptionsResponse.CompletionCodes`. -/
def SetSystemBootOptionsResponse.CompletionCodes (_res : SetSystemBootOptionsResponse) :
    CompletionCodeTable :=
  [(0x80, "parameter not supported"),
   (0x81, "attempt to set the 'set in progress' value (in parameter #0) when not in the 'set complete' state. (This completion code provides a way to recognize that another party has already 'claimed' the parameters)"),
   (0x82, "attempt to write read-only parameter")]

/-- Source: `GetDCMIConfigParamsResponse.CompletionCodes`. -/
def GetDCMIConfigParamsResponse.CompletionCodes (_res : GetDCMIConfigParamsResponse) :
    CompletionCodeTable :=
  []

/-- Source: `GetPayloadActivationStatusResponse.CompletionCodes`. -/
def GetPayloadActivationStatusResponse.CompletionCodes
    (_res : GetPayloadActivationStatusResponse) : CompletionCodeTable :=
  []

/-! ## Vocabulary for the statements about the client operations -/

/-- An `Exchange` instrumented with a log: every request handed to the transport is
appended to a list kept beside the transport state. -/
def withLog {σ : Type} {Req : Type} {Res : Type} (Exchange : ExchangeFn σ Req Res) :
    ExchangeFn (σ × List Req) Req Res :=
  fun s request response =>
    let r := Exchange s.1 request response
    ((r.1, s.2 ++ [request]), r.2.1, r.2.2)

/-- The request that carries the (parameter selector, set selector) pair reported by the
arm value `param`. -/
def armRequest {α : Type} (I : DCMIConfigParameter α) (param : α) :
    GetDCMIConfigParamsRequest :=
  { ParamSelector := (I.DCMIConfigParameter param).1
    SetSelector := (I.DCMIConfigParameter param).2 }

/-- The request of sub-fetch `i` of `GetDCMIConfigurations`, counted from 0 in source
order: the selectors reported by the zero value of the `i`-th parameter type. -/
def subRequest {A : Type} {B : Type} {C : Type} {D : Type} {E : Type}
    (arms : DCMIConfigArms A B C D E) (i : Nat) : GetDCMIConfigParamsRequest :=
  match i with
  | 0 => armRequest arms.ActivateDHCP arms.ActivateDHCP.zero
  | 1 => armRequest arms.DiscoveryConfiguration arms.DiscoveryConfiguration.zero
  | 2 => armRequest arms.DHCPTiming1 arms.DHCPTiming1.zero
  | 3 => armRequest arms.DHCPTiming2 arms.DHCPTiming2.zero
  | _ => armRequest arms.DHCPTiming3 arms.DHCPTiming3.zero

/-- Sub-fetch `i` of `GetDCMIConfigurations`, counted from 0 in source order, started in
transport state `s`: the call of `GetDCMIConfigParamsFor` on the zero value of the `i`-th
parameter type, reduced to the transport state it leaves and the error it returns. -/
def subFetch {σ : Type} {A : Type} {B : Type} {C : Type} {D : Type} {E : Type}
    (Exchange : ExchangeFn σ GetDCMIConfigParamsRequest GetDCMIConfigParamsResponse)
    (selectorString : Nat → String) (arms : DCMIConfigArms A B C D E) (i : Nat) (s : σ) :
    σ × Option GoError :=
  match i with
  | 0 =>
    let r := Client.GetDCMIConfigParamsFor Exchange selectorString arms.ActivateDHCP s
      arms.ActivateDHCP.zero
    (r.1, r.2.2)
  | 1 =>
    let r := Client.GetDCMIConfigParamsFor Exchange selectorString
      arms.DiscoveryConfiguration s arms.DiscoveryConfiguration.zero
    (r.1, r.2.2)
  | 2 =>
    let r := Client.GetDCMIConfigParamsFor Exchange selectorString arms.DHCPTiming1 s
      arms.DHCPTiming1.zero
    (r.1, r.2.2)
  | 3 =>
    let r := Client.GetDCMIConfigParamsFor Exchange selectorString arms.DHCPTiming2 s
      arms.DHCPTiming2.zero
    (r.1, r.2.2)
  | _ =>
    let r := Client.GetDCMIConfigParamsFor Exchange selectorString arms.DHCPTiming3 s
      arms.DHCPTiming3.zero
    (r.1, r.2.2)

/-- The transport state in which sub-fetch `i` (counted from 0) starts when the sub-fetches
before it have run one after the other from state `s`. -/
def stateBefore {σ : Type} {A : Type} {B : Type} {C : Type} {D : Type} {E : Type}
    (Exchange : ExchangeFn σ GetDCMIConfigParamsRequest GetDCMIConfigParamsResponse)
    (selectorString : Nat → String) (arms : DCMIConfigArms A B C D E) (i : Nat) (s : σ) : σ :=
  match i with
  | 0 => s
  | j + 1 =>
    (subFetch Exchange selectorString arms j
      (stateBefore Exchange selectorString arms j s)).1

/-- The error of the decoder of the `i`-th parameter type (counted from 0 in source order)
run on its zero value and the payload `data`. -/
def subUnpackError {A : Type} {B : Type} {C : Type} {D : Type} {E : Type}
    (arms : DCMIConfigArms A B C D E) (i : Nat) (data : List Nat) : Option GoError :=
  match i with
  | 0 => (arms.ActivateDHCP.Unpack arms.ActivateDHCP.zero data).2
  | 1 => (arms.DiscoveryConfiguration.Unpack arms.DiscoveryConfiguration.zero data).2
  | 2 => (arms.DHCPTiming1.Unpack arms.DHCPTiming1.zero data).2
  | 3 => (arms.DHCPTiming2.Unpack arms.DHCPTiming2.zero data).2
  | _ => (arms.DHCPTiming3.Unpack arms.DHCPTiming3.zero data).2

/-! ## An example transport and example parameter types -/

/-- An example parameter type: its value is the payload it was decoded from; the decoder
needs two payload bytes and fails with the external error 9 otherwise. -/
def exampleArm (selector : Nat) : DCMIConfigParameter (List Nat) :=
  { zero := []
    DCMIConfigParameter := fun _ => (selector, 0)
    Unpack := fun param data =>
      if data.length < 2 then (param, some (GoError.external 9)) else (data, none) }

/-- Five example parameter types with the selectors 1 to 5. -/
def exampleArms : DCMIConfigArms (List Nat) (List Nat) (List Nat) (List Nat) (List Nat) :=
  { ActivateDHCP := exampleArm 1
    DiscoveryConfiguration := exampleArm 2
    DHCPTiming1 := exampleArm 3
    DHCPTiming2 := exampleArm 4
    DHCPTiming3 := exampleArm 5 }

/-- Example names of the parameter selectors. -/
def exampleSelectorString (selector : Nat) : String :=
  if selector = 3 then "DHCPTiming1" else "Other"

/-- An example transport.  Its state counts the exchanges made so far.  Exchange number
`failAt` fails with the external error 7.  Every other exchange decodes, with the
response's own `Unpack` and tag `0xDC`, a buffer holding version 1.5, revision 2 and the
payload `[ParamSelector, SetSelector]` (only `[ParamSelector]` in exchange number
`shortAt`). -/
def exampleExchange (failAt : Nat) (shortAt : Nat) :
    ExchangeFn Nat GetDCMIConfigParamsRequest GetDCMIConfigParamsResponse :=
  fun n request response =>
    if n + 1 = failAt then
      (n + 1, response, some (GoError.external 7))
    else
      let msg :=
        if n + 1 = shortAt then [0xDC, 1, 5, 2, request.ParamSelector]
        else [0xDC, 1, 5, 2, request.ParamSelector, request.SetSelector]
      let r := response.Unpack 0xDC msg
      (n + 1, r.1, r.2.map GoError.codec)

/-- An example transport for Set System Boot Options: its state counts the exchanges;
every exchange fails with the external error 7 when `fail` is set and succeeds
otherwise. -/
def exampleBootExchange (fail : Bool) :
    ExchangeFn Nat (SetSystemBootOptionsRequest BootOptionParameter)
      SetSystemBootOptionsResponse :=
  fun n _ response =>
    if fail then (n + 1, response, some (GoError.external 7)) else (n + 1, response, none)

/-- An example transport for Get Payload Activation Status: its state counts the
exchanges; every exchange decodes the buffer `msg` with the response's own `Unpack`. -/
def examplePayloadExchange (msg : List Nat) :
    ExchangeFn Nat GetPayloadActivationStatusRequest GetPayloadActivationStatusResponse :=
  fun n _ response =>
    let r := response.Unpack msg
    (n + 1, r.1, r.2.map GoError.codec)

/-- The byte whose bit `i` (counted from the least significant bit) is the `i`-th flag of
the list: the mask that packs up to eight flags. -/
def flagMask (flags : List Bool) : Nat :=
  match flags with
  | [] => 0
  | b :: rest => (if b then 1 else 0) + 2 * flagMask rest

/-- A byte buffer: every element is a `uint8` value. -/
def IsBytes (msg : List Nat) : Prop := ∀ b ∈ msg, b < 256

instance (msg : List Nat) : Decidable (IsBytes msg) := by
  unfold IsBytes; infer_instance

/-! ## Theorems -/

theorem Unpack_pas_of_len (res : GetPayloadActivationStatusResponse) (msg : List Nat)
    (h : 3 ≤ msg.length) :
    res.Unpack msg =
      ({ InstanceCapacity := (msg.getD 0 0 + 1) % 256
         Instance01Activated := Nat.testBit (msg.getD 1 0) 0
         Instance02Activated := Nat.testBit (msg.getD 1 0) 1
         Instance03Activated := Nat.testBit (msg.getD 1 0) 2
         Instance04Activated := Nat.testBit (msg.getD 1 0) 3
         Instance05Activated := Nat.testBit (msg.getD 1 0) 4
         Instance06Activated := Nat.testBit (msg.getD 1 0) 5
         Instance07Activated := Nat.testBit (msg.getD 1 0) 6
         Instance08Activated := Nat.testBit (msg.getD 1 0) 7
         Instance09Activated := Nat.testBit (msg.getD 2 0) 0
         Instance10Activated := Nat.testBit (msg.getD 2 0) 1
         Instance11Activated := Nat.testBit (msg.getD 2 0) 2
         Instance12Activated := Nat.testBit (msg.getD 2 0) 3
         Instance13Activated := Nat.testBit (msg.getD 2 0) 4
         Instance14Activated := Nat.testBit (msg.getD 2 0) 5
         Instance15Activated := Nat.testBit (msg.getD 2 0) 6
         Instance16Activated := Nat.testBit (msg.getD 2 0) 7
         PayloadType := res.PayloadType }, none) := by
  have h3 : ¬ msg.length < 3 := by omega
  simp only [GetPayloadActivationStatusResponse.Unpack, h3, if_false, isBit0Set, isBit1Set,
    isBit2Set, isBit3Set, isBit4Set, isBit5Set, isBit6Set, isBit7Set]

/-- C1: for every buffer of length at least 3, `Unpack` succeeds and flag `k` (1..16) is true
exactly when bit `(k-1) mod 8` of byte `msg[1 + (k-1) div 8]` is set; bytes 1-2 =
`0xFF, 0x00` give instances 1-8 activated and 9-16 deactivated, and bytes 1-2 =
`0x01, 0x00` give only instance 1 activated. -/
theorem C1_unpack_flags_bit_positions (res : GetPayloadActivationStatusResponse)
    (msg : List Nat) (h : 3 ≤ msg.length) :
    (res.Unpack msg).2 = none ∧
    (∀ k, 1 ≤ k → k ≤ 16 →
      ((res.Unpack msg).1.InstanceActivated k = true ↔
        msg.getD (1 + (k - 1) / 8) 0 / 2 ^ ((k - 1) % 8) % 2 = 1)) ∧
    (msg.getD 1 0 = 0xFF → msg.getD 2 0 = 0x00 →
      (res.Unpack msg).1.flags =
        [true, true, true, true, true, true, true, true,
         false, false, false, false, false, false, false, false]) ∧
    (msg.getD 1 0 = 0x01 → msg.getD 2 0 = 0x00 →
      (res.Unpack msg).1.flags =
        [true, false, false, false, false, false, false, false,
         false, false, false, false, false, false, false, false]) := by
  rw [Unpack_pas_of_len res msg h]
  refine ⟨rfl, ?_, ?_, ?_⟩
  · intro k hk1 hk16
    interval_cases k <;>
      simp [GetPayloadActivationStatusResponse.InstanceActivated, Nat.testBit_to_div_mod]
  · intro h1 h2
    simp only [GetPayloadActivationStatusResponse.flags, h1, h2]
    decide
  · intro h1 h2
    simp only [GetPayloadActivationStatusResponse.flags, h1, h2]
    decide

/-- C1 at the buffer `[0x03, 0xFF, 0x00]`, decoded into a zero response. -/
theorem C1_unpack_flags_bit_positions_witness :
    3 ≤ [0x03, 0xFF, 0x00].length ∧
    (GetPayloadActivationStatusResponse.zero.Unpack [0x03, 0xFF, 0x00]).2 = none ∧
    (GetPayloadActivationStatusResponse.zero.Unpack [0x03, 0xFF, 0x00]).1.flags =
        [true, true, true, true, true, true, true, true,
         false, false, false, false, false, false, false, false] :=
  ⟨by decide,
   (C1_unpack_flags_bit_positions GetPayloadActivationStatusResponse.zero [0x03, 0xFF, 0x00]
      (by decide)).1,
   (C1_unpack_flags_bit_positions GetPayloadActivationStatusResponse.zero [0x03, 0xFF, 0x00]
      (by decide)).2.2.1 rfl rfl⟩

/-- C2 fails as stated: for first byte `0xFF` the decoded capacity is `0`, not `0xFF + 1`. -/
theorem C2_capacity_plus_one_counterexample :
    3 ≤ [0xFF, 0x00, 0x00].length ∧ IsBytes [0xFF, 0x00, 0x00] ∧
    (GetPayloadActivationStatusResponse.zero.Unpack [0xFF, 0x00, 0x00]).2 = none ∧
    ¬ ((GetPayloadActivationStatusResponse.zero.Unpack [0xFF, 0x00, 0x00]).1.InstanceCapacity
        = [0xFF, 0x00, 0x00].getD 0 0 + 1) := by
  decide

/-- C2 (amended): for every buffer of length at least 3 whose first byte is at most `0xFE`,
`Unpack` sets `InstanceCapacity` to `msg[0] + 1`; first byte `0x00` gives capacity 1 and
first byte `0x0F` gives capacity 16. -/
theorem C2_capacity_plus_one (res : GetPayloadActivationStatusResponse) (msg : List Nat)
    (h : 3 ≤ msg.length) (h0 : msg.getD 0 0 ≤ 0xFE) :
    (res.Unpack msg).1.InstanceCapacity = msg.getD 0 0 + 1 ∧
    (msg.getD 0 0 = 0x00 → (res.Unpack msg).1.InstanceCapacity = 1) ∧
    (msg.getD 0 0 = 0x0F → (res.Unpack msg).1.InstanceCapacity = 16) := by
  rw [Unpack_pas_of_len res msg h]
  have hlt : msg.getD 0 0 + 1 < 256 := by omega
  refine ⟨Nat.mod_eq_of_lt hlt, ?_, ?_⟩
  · intro hz
    show (msg.getD 0 0 + 1) % 256 = 1
    rw [hz]
  · intro hz
    show (msg.getD 0 0 + 1) % 256 = 16
    rw [hz]

/-- C2 (amended) at the buffers `[0x00, 0x00, 0x00]` and `[0x0F, 0x00, 0x00]`. -/
theorem C2_capacity_plus_one_witness :
    (3 ≤ [0x00, 0x00, 0x00].length ∧ [0x00, 0x00, 0x00].getD 0 0 ≤ 0xFE ∧
      (GetPayloadActivationStatusResponse.zero.Unpack [0x00, 0x00, 0x00]).1.InstanceCapacity
        = 1) ∧
    (3 ≤ [0x0F, 0x00, 0x00].length ∧ [0x0F, 0x00, 0x00].getD 0 0 ≤ 0xFE ∧
      (GetPayloadActivationStatusResponse.zero.Unpack [0x0F, 0x00, 0x00]).1.InstanceCapacity
        = 16) :=
  ⟨⟨by decide, by decide,
    (C2_capacity_plus_one GetPayloadActivationStatusResponse.zero [0x00, 0x00, 0x00]
      (by decide) (by decide)).2.1 rfl⟩,
   ⟨by decide, by decide,
    (C2_capacity_plus_one GetPayloadActivationStatusResponse.zero [0x0F, 0x00, 0x00]
      (by decide) (by decide)).2.2 rfl⟩⟩

/-- C3 at the failing input: the three-byte buffer `[0xFF, 0x01, 0x00]` is decoded without
error and the decoded `InstanceCapacity` is `0`, so it is not at least 1. -/
theorem C3_capacity_zero_at_0xFF (res : GetPayloadActivationStatusResponse) :
    (res.Unpack [0xFF, 0x01, 0x00]).2 = none ∧
    (res.Unpack [0xFF, 0x01, 0x00]).1.InstanceCapacity = 0 ∧
    ¬ (1 ≤ (res.Unpack [0xFF, 0x01, 0x00]).1.InstanceCapacity) := by
  rw [Unpack_pas_of_len res _ (by decide)]
  refine ⟨rfl, rfl, ?_⟩
  show ¬ (1 ≤ ([0xFF, 0x01, 0x00].getD 0 0 + 1) % 256)
  decide

/-- C9: a buffer of length `n < 3` is rejected with the too-short error carrying `n` and 3
and the response is returned unchanged (capacity, the 16 flags and `PayloadType`); a
buffer of length at least 3 is decoded without error. -/
theorem C9_unpack_pas_too_short (res : GetPayloadActivationStatusResponse) (msg : List Nat) :
    (msg.length < 3 →
      (res.Unpack msg).2 = some (Error.UnpackedDataTooShort msg.length 3) ∧
      (res.Unpack msg).1 = res ∧
      (res.Unpack msg).1.InstanceCapacity = res.InstanceCapacity ∧
      (res.Unpack msg).1.flags = res.flags ∧
      (res.Unpack msg).1.PayloadType = res.PayloadType) ∧
    (3 ≤ msg.length → (res.Unpack msg).2 = none) := by
  constructor
  · intro h
    simp [GetPayloadActivationStatusResponse.Unpack, h, ErrUnpackedDataTooShortWith]
  · intro h
    rw [Unpack_pas_of_len res msg h]

/-- C9 at the buffers `[0x07, 0xFF]` (length 2) and `[0x07, 0xFF, 0x00]` (length 3). -/
theorem C9_unpack_pas_too_short_witness :
    ([0x07, 0xFF].length < 3 ∧
      (GetPayloadActivationStatusResponse.zero.Unpack [0x07, 0xFF]).2
        = some (Error.UnpackedDataTooShort 2 3) ∧
      (GetPayloadActivationStatusResponse.zero.Unpack [0x07, 0xFF]).1
        = GetPayloadActivationStatusResponse.zero) ∧
    (3 ≤ [0x07, 0xFF, 0x00].length ∧
      (GetPayloadActivationStatusResponse.zero.Unpack [0x07, 0xFF, 0x00]).2 = none) :=
  ⟨⟨by decide,
    ((C9_unpack_pas_too_short GetPayloadActivationStatusResponse.zero [0x07, 0xFF]).1
      (by decide)).1,
    ((C9_unpack_pas_too_short GetPayloadActivationStatusResponse.zero [0x07, 0xFF]).1
      (by decide)).2.1⟩,
   ⟨by decide,
    (C9_unpack_pas_too_short GetPayloadActivationStatusResponse.zero [0x07, 0xFF, 0x00]).2
      (by decide)⟩⟩

/-! ### Get DCMI Configuration Parameters -/

theorem take_length_sub_drop (msg : List Nat) (n : Nat) :
    (msg.drop n).take (msg.length - n) = msg.drop n := by
  apply List.take_of_length_le
  simp

theorem Unpack_dcmi_of_match (tag : Nat) (res : GetDCMIConfigParamsResponse) (msg : List Nat)
    (h : 5 ≤ msg.length) (h0 : msg.getD 0 0 = tag) :
    res.Unpack tag msg =
      ({ MajorVersion := msg.getD 1 0
         MinorVersion := msg.getD 2 0
         ParamRevision := msg.getD 3 0
         ParamData := msg.drop 4 }, none) := by
  have h5 : ¬ msg.length < 5 := by omega
  have h2 : ¬ msg.length < 1 + 1 := by omega
  have h3 : ¬ msg.length < 2 + 1 := by omega
  have h4 : ¬ msg.length < 3 + 1 := by omega
  have h6 : ¬ msg.length < 4 + (msg.length - 4) := by omega
  simp only [GetDCMIConfigParamsResponse.Unpack, h5, if_false, CheckDCMIGroupExenstionMatch,
    h0, ne_eq, not_true_eq_false, unpackUint8, unpackBytes, h2, h3, h4, h6,
    take_length_sub_drop]

/-- C6: for every buffer of length at least 5 whose first byte is the DCMI group-extension
tag, `Unpack` succeeds and sets `MajorVersion = msg[1]`, `MinorVersion = msg[2]`,
`ParamRevision = msg[3]` and `ParamData = msg[4..]`; decoding
`tag ++ [major, minor, revision] ++ payload` with a non-empty payload gives back
`(major, minor, revision, payload)`. -/
theorem C6_unpack_dcmi_fields (tag : Nat) (res : GetDCMIConfigParamsResponse) (msg : List Nat)
    (h : 5 ≤ msg.length) (h0 : msg.getD 0 0 = tag) :
    (res.Unpack tag msg).2 = none ∧
    (res.Unpack tag msg).1.MajorVersion = msg.getD 1 0 ∧
    (res.Unpack tag msg).1.MinorVersion = msg.getD 2 0 ∧
    (res.Unpack tag msg).1.ParamRevision = msg.getD 3 0 ∧
    (res.Unpack tag msg).1.ParamData = msg.drop 4 ∧
    (∀ major minor revision payload, payload ≠ [] →
      res.Unpack tag ([tag] ++ [major, minor, revision] ++ payload) =
        ({ MajorVersion := major, MinorVersion := minor, ParamRevision := revision,
           ParamData := payload }, none)) := by
  rw [Unpack_dcmi_of_match tag res msg h h0]
  refine ⟨rfl, rfl, rfl, rfl, rfl, ?_⟩
  intro major minor revision payload hp
  have hlen : 5 ≤ ([tag] ++ [major, minor, revision] ++ payload).length := by
    cases payload with
    | nil => exact absurd rfl hp
    | cons b bs => simp
  rw [Unpack_dcmi_of_match tag res _ hlen rfl]
  rfl

/-- C6 at tag `0xDC` and the buffer `[0xDC, 0x01, 0x05, 0x02, 0xAA, 0xBB]`. -/
theorem C6_unpack_dcmi_fields_witness :
    5 ≤ [0xDC, 0x01, 0x05, 0x02, 0xAA, 0xBB].length ∧
    [0xDC, 0x01, 0x05, 0x02, 0xAA, 0xBB].getD 0 0 = 0xDC ∧
    (GetDCMIConfigParamsResponse.zero.Unpack 0xDC [0xDC, 0x01, 0x05, 0x02, 0xAA, 0xBB]).2
      = none ∧
    (GetDCMIConfigParamsResponse.zero.Unpack 0xDC [0xDC, 0x01, 0x05, 0x02, 0xAA, 0xBB]).1.ParamData
      = [0xAA, 0xBB] ∧
    GetDCMIConfigParamsResponse.zero.Unpack 0xDC ([0xDC] ++ [0x01, 0x05, 0x02] ++ [0x07]) =
      ({ MajorVersion := 0x01, MinorVersion := 0x05, ParamRevision := 0x02,
         ParamData := [0x07] }, none) :=
  ⟨by decide, by decide,
   (C6_unpack_dcmi_fields 0xDC GetDCMIConfigParamsResponse.zero
      [0xDC, 0x01, 0x05, 0x02, 0xAA, 0xBB] (by decide) (by decide)).1,
   (C6_unpack_dcmi_fields 0xDC GetDCMIConfigParamsResponse.zero
      [0xDC, 0x01, 0x05, 0x02, 0xAA, 0xBB] (by decide) (by decide)).2.2.2.2.1,
   (C6_unpack_dcmi_fields 0xDC GetDCMIConfigParamsResponse.zero
      [0xDC, 0x01, 0x05, 0x02, 0xAA, 0xBB] (by decide) (by decide)).2.2.2.2.2
      0x01 0x05 0x02 [0x07] (by decide)⟩

/-- C7: for every buffer of length at least 5 whose first byte differs from the DCMI
group-extension tag, `Unpack` returns the tag-mismatch error, whatever the other bytes
are, and the response is returned unchanged. -/
theorem C7_unpack_dcmi_tag_mismatch (tag : Nat) (res : GetDCMIConfigParamsResponse)
    (msg : List Nat) (h : 5 ≤ msg.length) (h0 : msg.getD 0 0 ≠ tag) :
    (res.Unpack tag msg).2 = some (Error.GroupExtensionNotMatched tag (msg.getD 0 0)) ∧
    (res.Unpack tag msg).1 = res := by
  have h5 : ¬ msg.length < 5 := by omega
  simp only [GetDCMIConfigParamsResponse.Unpack, h5, if_false, CheckDCMIGroupExenstionMatch,
    h0, ne_eq, not_false_eq_true, if_true, and_self]

/-- C7 at tag `0xDC` and the buffer `[0xDD, 0x01, 0x05, 0x02, 0xAA]`, decoded into a
response that already holds data. -/
theorem C7_unpack_dcmi_tag_mismatch_witness :
    5 ≤ [0xDD, 0x01, 0x05, 0x02, 0xAA].length ∧
    [0xDD, 0x01, 0x05, 0x02, 0xAA].getD 0 0 ≠ 0xDC ∧
    (GetDCMIConfigParamsResponse.Unpack 0xDC
        { MajorVersion := 9, MinorVersion := 8, ParamRevision := 7, ParamData := [6] }
        [0xDD, 0x01, 0x05, 0x02, 0xAA]) =
      ({ MajorVersion := 9, MinorVersion := 8, ParamRevision := 7, ParamData := [6] },
       some (Error.GroupExtensionNotMatched 0xDC 0xDD)) :=
  ⟨by decide, by decide,
   Prod.ext
    (C7_unpack_dcmi_tag_mismatch 0xDC
      { MajorVersion := 9, MinorVersion := 8, ParamRevision := 7, ParamData := [6] }
      [0xDD, 0x01, 0x05, 0x02, 0xAA] (by decide) (by decide)).2
    (C7_unpack_dcmi_tag_mismatch 0xDC
      { MajorVersion := 9, MinorVersion := 8, ParamRevision := 7, ParamData := [6] }
      [0xDD, 0x01, 0x05, 0x02, 0xAA] (by decide) (by decide)).1⟩

/-- C8: for every buffer of length `n < 5`, whatever its first byte, `Unpack` returns the
too-short error carrying `n` and 5 and the response is returned unchanged; the tag is not
looked at. -/
theorem C8_unpack_dcmi_too_short (tag : Nat) (res : GetDCMIConfigParamsResponse)
    (msg : List Nat) (h : msg.length < 5) :
    (res.Unpack tag msg).2 = some (Error.UnpackedDataTooShort msg.length 5) ∧
    (res.Unpack tag msg).1 = res := by
  simp only [GetDCMIConfigParamsResponse.Unpack, h, if_true, ErrUnpackedDataTooShortWith,
    and_self]

/-- C8 at tag `0xDC` and the four-byte buffer `[0xDD, 0x01, 0x05, 0x02]`, whose first byte
is a wrong tag. -/
theorem C8_unpack_dcmi_too_short_witness :
    [0xDD, 0x01, 0x05, 0x02].length < 5 ∧
    (GetDCMIConfigParamsResponse.Unpack 0xDC
        { MajorVersion := 9, MinorVersion := 8, ParamRevision := 7, ParamData := [6] }
        [0xDD, 0x01, 0x05, 0x02]) =
      ({ MajorVersion := 9, MinorVersion := 8, ParamRevision := 7, ParamData := [6] },
       some (Error.UnpackedDataTooShort 4 5)) :=
  ⟨by decide,
   Prod.ext
    (C8_unpack_dcmi_too_short 0xDC
      { MajorVersion := 9, MinorVersion := 8, ParamRevision := 7, ParamData := [6] }
      [0xDD, 0x01, 0x05, 0x02] (by decide)).2
    (C8_unpack_dcmi_too_short 0xDC
      { MajorVersion := 9, MinorVersion := 8, ParamRevision := 7, ParamData := [6] }
      [0xDD, 0x01, 0x05, 0x02] (by decide)).1⟩

/-- C10: `GetDCMIConfigParamsRequest.Pack` is exactly the three bytes
`[tag, ParamSelector as a byte, SetSelector]` and `GetPayloadActivationStatusRequest.Pack`
is exactly the one byte `[PayloadType as a byte]` (the field itself when it is a byte
value); both are total functions. -/
theorem C10_request_pack_bytes (tag : Nat) (req : GetDCMIConfigParamsRequest)
    (preq : GetPayloadActivationStatusRequest) :
    req.Pack tag = [tag, req.ParamSelector % 256, req.SetSelector] ∧
    (req.Pack tag).length = 3 ∧
    (req.ParamSelector < 256 → req.Pack tag = [tag, req.ParamSelector, req.SetSelector]) ∧
    preq.Pack = [preq.PayloadType % 256] ∧
    preq.Pack.length = 1 ∧
    (preq.PayloadType < 256 → preq.Pack = [preq.PayloadType]) := by
  refine ⟨rfl, rfl, ?_, rfl, rfl, ?_⟩
  · intro h
    show [tag, req.ParamSelector % 256, req.SetSelector] = _
    rw [Nat.mod_eq_of_lt h]
  · intro h
    show [preq.PayloadType % 256] = _
    rw [Nat.mod_eq_of_lt h]

/-- C10 at tag `0xDC`, the request `(ParamSelector 0x03, SetSelector 0x00)` and payload
type `0x01`. -/
theorem C10_request_pack_bytes_witness :
    GetDCMIConfigParamsRequest.Pack 0xDC { ParamSelector := 0x03, SetSelector := 0x00 }
      = [0xDC, 0x03, 0x00] ∧
    GetPayloadActivationStatusRequest.Pack { PayloadType := 0x01 } = [0x01] :=
  ⟨(C10_request_pack_bytes 0xDC { ParamSelector := 0x03, SetSelector := 0x00 }
      { PayloadType := 0x01 }).2.2.1 (by decide),
   (C10_request_pack_bytes 0xDC { ParamSelector := 0x03, SetSelector := 0x00 }
      { PayloadType := 0x01 }).2.2.2.2.2 (by decide)⟩

/-! ### Set System Boot Options -/

set_option maxRecDepth 100000 in
theorem setBit7_byte : ∀ b, b < 256 →
    setBit7 b < 256 ∧ setBit7 b / 128 % 2 = 1 ∧ setBit7 b % 128 = b % 128 := by
  unfold setBit7
  decide

set_option maxRecDepth 100000 in
theorem clearBit7_byte : ∀ b, b < 256 →
    clearBit7 b < 256 ∧ clearBit7 b / 128 % 2 = 0 ∧ clearBit7 b % 128 = b % 128 := by
  unfold clearBit7
  decide

theorem packUint8_replicate_zero (b n : Nat) :
    packUint8 b (List.replicate (1 + n) 0) 0 = b :: List.replicate n 0 := by
  rw [Nat.add_comm, List.replicate_succ]
  rfl

theorem packBytes_after_header (b : Nat) (v : List Nat) :
    packBytes v (b :: List.replicate v.length 0) 1 = b :: v := by
  simp [packBytes, Nat.add_comm]

theorem Pack_sbo_eq {P : Type} (packParam : P → Nat → List Nat)
    (req : SetSystemBootOptionsRequest P) :
    req.Pack packParam =
      (if req.MarkParameterInvalid then setBit7 (req.ParameterSelector % 256)
        else clearBit7 (req.ParameterSelector % 256))
      :: packParam req.BootOptionParameter req.ParameterSelector := by
  simp only [SetSystemBootOptionsRequest.Pack, packUint8_replicate_zero,
    packBytes_after_header]

/-- C4: for every request, `Pack` is one header byte followed by the bytes of
`BootOptionParameter.Pack(ParameterSelector)`, so its length is 1 + the parameter data
length; bit 7 of the header byte is set exactly when `MarkParameterInvalid` is true, and
bits 0-6 of the header byte are the low seven bits of `ParameterSelector` (the selector
itself when it lies in 0..127). -/
theorem C4_pack_sbo_layout {P : Type} (packParam : P → Nat → List Nat)
    (req : SetSystemBootOptionsRequest P) :
    ∃ hdr : Nat,
      req.Pack packParam = hdr :: packParam req.BootOptionParameter req.ParameterSelector ∧
      (req.Pack packParam).length
        = 1 + (packParam req.BootOptionParameter req.ParameterSelector).length ∧
      hdr < 256 ∧
      (hdr / 128 % 2 = 1 ↔ req.MarkParameterInvalid = true) ∧
      hdr % 128 = req.ParameterSelector % 128 ∧
      (req.ParameterSelector < 128 → hdr % 128 = req.ParameterSelector) := by
  have hb : req.ParameterSelector % 256 < 256 := Nat.mod_lt _ (by decide)
  have hm : req.ParameterSelector % 256 % 128 = req.ParameterSelector % 128 :=
    Nat.mod_mod_of_dvd _ (by decide)
  refine ⟨_, Pack_sbo_eq packParam req, ?_, ?_, ?_, ?_, ?_⟩
  · rw [Pack_sbo_eq, List.length_cons, Nat.add_comm]
  · cases req.MarkParameterInvalid
    · exact (clearBit7_byte _ hb).1
    · exact (setBit7_byte _ hb).1
  · cases req.MarkParameterInvalid
    · simp [(clearBit7_byte _ hb).2.1]
    · simp [(setBit7_byte _ hb).2.1]
  · cases req.MarkParameterInvalid
    · simpa using (clearBit7_byte _ hb).2.2.trans hm
    · simpa using (setBit7_byte _ hb).2.2.trans hm
  · intro hsel
    cases req.MarkParameterInvalid
    · simpa [Nat.mod_eq_of_lt hsel] using (clearBit7_byte _ hb).2.2.trans hm
    · simpa [Nat.mod_eq_of_lt hsel] using (setBit7_byte _ hb).2.2.trans hm

/-- C4 at the request (invalid-mark set, selector 5, parameter bytes `[0xA0, 0x00]`) with
the parameter packed as its own bytes: the packed form is `[0x85, 0xA0, 0x00]`. -/
theorem C4_pack_sbo_layout_witness :
    (5 : Nat) < 128 ∧
    ∃ hdr : Nat,
      SetSystemBootOptionsRequest.Pack (fun (p : List Nat) (_ : Nat) => p)
          { MarkParameterInvalid := true, ParameterSelector := 5,
            BootOptionParameter := [0xA0, 0x00] }
        = hdr :: [0xA0, 0x00] ∧
      hdr / 128 % 2 = 1 ∧ hdr % 128 = 5 :=
  ⟨by decide,
   (C4_pack_sbo_layout (fun (p : List Nat) (_ : Nat) => p)
      { MarkParameterInvalid := true, ParameterSelector := 5,
        BootOptionParameter := [0xA0, 0x00] }).elim
     (fun hdr hh => ⟨hdr, hh.1, hh.2.2.2.1.mpr rfl, hh.2.2.2.2.2 (by decide)⟩)⟩

/-- C5: the request built by `SetBootDevice` has `MarkParameterInvalid = false`,
`ParameterSelector = BOPS_BootFlags` and a boot-flags arm with `BootFlagsValid = true`,
`Persist = persist`, `BIOSBootType = bootType`, `BootDeviceSelector` = the given selector;
bit 7 of the first byte of its packed form is clear, and equal arguments give equal
requests. -/
theorem C5_set_boot_device_request (BOPS_BootFlags : Nat) (bootDeviceSelector : Nat)
    (bootType : Nat) (persist : Bool) :
    (Client.SetBootDevice.req BOPS_BootFlags bootDeviceSelector bootType
        persist).MarkParameterInvalid = false ∧
    (Client.SetBootDevice.req BOPS_BootFlags bootDeviceSelector bootType
        persist).ParameterSelector = BOPS_BootFlags ∧
    (Client.SetBootDevice.req BOPS_BootFlags bootDeviceSelector bootType
        persist).BootOptionParameter.BootFlags =
      some { BootFlagsValid := true, Persist := persist, BIOSBootType := bootType,
             BootDeviceSelector := bootDeviceSelector } ∧
    (∀ packParam : BootOptionParameter → Nat → List Nat, ∃ hdr rest,
      (Client.SetBootDevice.req BOPS_BootFlags bootDeviceSelector bootType persist).Pack
          packParam = hdr :: rest ∧
      hdr / 128 % 2 = 0) ∧
    (∀ (bootDeviceSelector2 bootType2 : Nat) (persist2 : Bool),
      bootDeviceSelector2 = bootDeviceSelector → bootType2 = bootType → persist2 = persist →
      Client.SetBootDevice.req BOPS_BootFlags bootDeviceSelector2 bootType2 persist2 =
        Client.SetBootDevice.req BOPS_BootFlags bootDeviceSelector bootType persist) := by
  refine ⟨rfl, rfl, rfl, ?_, ?_⟩
  · intro packParam
    refine ⟨_, _, Pack_sbo_eq packParam _, ?_⟩
    exact (clearBit7_byte _ (Nat.mod_lt _ (by decide))).2.1
  · intro s2 b2 p2 hs hb hp
    rw [hs, hb, hp]

/-- C5 at `BOPS_BootFlags = 5`, device selector 2, boot type 1, `persist = true`, with the
parameter packed as no bytes: the packed form is the single header byte `0x05`. -/
theorem C5_set_boot_device_request_witness :
    (Client.SetBootDevice.req 5 2 1 true).BootOptionParameter.BootFlags =
      some { BootFlagsValid := true, Persist := true, BIOSBootType := 1,
             BootDeviceSelector := 2 } ∧
    (∃ hdr rest,
      (Client.SetBootDevice.req 5 2 1 true).Pack (fun _ _ => []) = hdr :: rest ∧
      hdr / 128 % 2 = 0) ∧
    Client.SetBootDevice.req 5 (1 + 1) 1 true = Client.SetBootDevice.req 5 2 1 true :=
  ⟨(C5_set_boot_device_request 5 2 1 true).2.2.1,
   (C5_set_boot_device_request 5 2 1 true).2.2.2.1 (fun _ _ => []),
   (C5_set_boot_device_request 5 2 1 true).2.2.2.2 (1 + 1) 1 true rfl rfl rfl⟩

/-! ### Client operations -/

theorem For_exchange_failed {σ : Type} {α : Type}
    (Exchange : ExchangeFn σ GetDCMIConfigParamsRequest GetDCMIConfigParamsResponse)
    (selectorString : Nat → String) (I : DCMIConfigParameter α) (s : σ) (param : α)
    (e : GoError)
    (h : (Exchange s (armRequest I param) GetDCMIConfigParamsResponse.zero).2.2 = some e) :
    Client.GetDCMIConfigParamsFor Exchange selectorString I s param =
      ((Exchange s (armRequest I param) GetDCMIConfigParamsResponse.zero).1, param,
        some e) := by
  unfold armRequest at h
  simp only [Client.GetDCMIConfigParamsFor, armRequest, h]

theorem For_unpack_failed {σ : Type} {α : Type}
    (Exchange : ExchangeFn σ GetDCMIConfigParamsRequest GetDCMIConfigParamsResponse)
    (selectorString : Nat → String) (I : DCMIConfigParameter α) (s : σ) (param : α)
    (e : GoError)
    (h : (Exchange s (armRequest I param) GetDCMIConfigParamsResponse.zero).2.2 = none)
    (hu : (I.Unpack param
      (Exchange s (armRequest I param) GetDCMIConfigParamsResponse.zero).2.1.ParamData).2
        = some e) :
    Client.GetDCMIConfigParamsFor Exchange selectorString I s param =
      ((Exchange s (armRequest I param) GetDCMIConfigParamsResponse.zero).1,
        (I.Unpack param
          (Exchange s (armRequest I param) GetDCMIConfigParamsResponse.zero).2.1.ParamData).1,
        some (GoError.ErrorfW unpackParamFailedFormat
          (selectorString (I.DCMIConfigParameter param).1) (I.DCMIConfigParameter param).1
          e)) := by
  unfold armRequest at h hu
  simp only [Client.GetDCMIConfigParamsFor, armRequest, h, hu]

theorem For_unpack_ok {σ : Type} {α : Type}
    (Exchange : ExchangeFn σ GetDCMIConfigParamsRequest GetDCMIConfigParamsResponse)
    (selectorString : Nat → String) (I : DCMIConfigParameter α) (s : σ) (param : α)
    (h : (Exchange s (armRequest I param) GetDCMIConfigParamsResponse.zero).2.2 = none)
    (hu : (I.Unpack param
      (Exchange s (armRequest I param) GetDCMIConfigParamsResponse.zero).2.1.ParamData).2
        = none) :
    Client.GetDCMIConfigParamsFor Exchange selectorString I s param =
      ((Exchange s (armRequest I param) GetDCMIConfigParamsResponse.zero).1,
        (I.Unpack param
          (Exchange s (armRequest I param) GetDCMIConfigParamsResponse.zero).2.1.ParamData).1,
        none) := by
  unfold armRequest at h hu
  simp only [Client.GetDCMIConfigParamsFor, armRequest, h, hu]

theorem For_withLog {σ : Type} {α : Type}
    (Exchange : ExchangeFn σ GetDCMIConfigParamsRequest GetDCMIConfigParamsResponse)
    (selectorString : Nat → String) (I : DCMIConfigParameter α) (s : σ)
    (log : List GetDCMIConfigParamsRequest) (param : α) :
    Client.GetDCMIConfigParamsFor (withLog Exchange) selectorString I (s, log) param =
      (((Client.GetDCMIConfigParamsFor Exchange selectorString I s param).1,
          log ++ [armRequest I param]),
        (Client.GetDCMIConfigParamsFor Exchange selectorString I s param).2) := by
  rcases h : (Exchange s (armRequest I param) GetDCMIConfigParamsResponse.zero).2.2
    with _ | e
  · rcases hu : (I.Unpack param
      (Exchange s (armRequest I param) GetDCMIConfigParamsResponse.zero).2.1.ParamData).2
      with _ | e
    · rw [For_unpack_ok (withLog Exchange) selectorString I (s, log) param h hu,
        For_unpack_ok Exchange selectorString I s param h hu]
      rfl
    · rw [For_unpack_failed (withLog Exchange) selectorString I (s, log) param e h hu,
        For_unpack_failed Exchange selectorString I s param e h hu]
      rfl
  · rw [For_exchange_failed (withLog Exchange) selectorString I (s, log) param e h,
      For_exchange_failed Exchange selectorString I s param e h]
    rfl

theorem subFetch_withLog {σ : Type} {A : Type} {B : Type} {C : Type} {D : Type} {E : Type}
    (Exchange : ExchangeFn σ GetDCMIConfigParamsRequest GetDCMIConfigParamsResponse)
    (selectorString : Nat → String) (arms : DCMIConfigArms A B C D E) (i : Nat) (s : σ)
    (log : List GetDCMIConfigParamsRequest) :
    subFetch (withLog Exchange) selectorString arms i (s, log) =
      (((subFetch Exchange selectorString arms i s).1, log ++ [subRequest arms i]),
        (subFetch Exchange selectorString arms i s).2) := by
  unfold subFetch subRequest
  split <;> simp only [For_withLog]

theorem stateBefore_withLog {σ : Type} {A : Type} {B : Type} {C : Type} {D : Type}
    {E : Type}
    (Exchange : ExchangeFn σ GetDCMIConfigParamsRequest GetDCMIConfigParamsResponse)
    (selectorString : Nat → String) (arms : DCMIConfigArms A B C D E) (s : σ) (i : Nat) :
    stateBefore (withLog Exchange) selectorString arms i (s, []) =
      (stateBefore Exchange selectorString arms i s,
        (List.range i).map (subRequest arms)) := by
  induction i with
  | zero => rfl
  | succ j ih =>
    rw [stateBefore, ih, subFetch_withLog, List.range_succ, List.map_append]
    rfl

theorem GetDCMIConfigurations_failed {σ : Type} {A : Type} {B : Type} {C : Type}
    {D : Type} {E : Type}
    (Exchange : ExchangeFn σ GetDCMIConfigParamsRequest GetDCMIConfigParamsResponse)
    (selectorString : Nat → String) (arms : DCMIConfigArms A B C D E) (s : σ) (k : Nat)
    (e : GoError) (hk1 : 1 ≤ k) (hk5 : k ≤ 5)
    (hok : ∀ i, i < k - 1 →
      (subFetch Exchange selectorString arms i
        (stateBefore Exchange selectorString arms i s)).2 = none)
    (hfail : (subFetch Exchange selectorString arms (k - 1)
        (stateBefore Exchange selectorString arms (k - 1) s)).2 = some e) :
    Client.GetDCMIConfigurations Exchange selectorString arms s =
      (stateBefore Exchange selectorString arms k s, none, some e) := by
  interval_cases k
  · simp only [stateBefore, subFetch] at hfail
    simp only [Client.GetDCMIConfigurations, stateBefore, subFetch, hfail]
  · have h0 := hok 0 (by decide)
    simp only [stateBefore, subFetch] at h0 hfail
    simp only [Client.GetDCMIConfigurations, stateBefore, subFetch, h0, hfail]
  · have h0 := hok 0 (by decide)
    have h1 := hok 1 (by decide)
    simp only [stateBefore, subFetch] at h0 h1 hfail
    simp only [Client.GetDCMIConfigurations, stateBefore, subFetch, h0, h1, hfail]
  · have h0 := hok 0 (by decide)
    have h1 := hok 1 (by decide)
    have h2 := hok 2 (by decide)
    simp only [stateBefore, subFetch] at h0 h1 h2 hfail
    simp only [Client.GetDCMIConfigurations, stateBefore, subFetch, h0, h1, h2, hfail]
  · have h0 := hok 0 (by decide)
    have h1 := hok 1 (by decide)
    have h2 := hok 2 (by decide)
    have h3 := hok 3 (by decide)
    simp only [stateBefore, subFetch] at h0 h1 h2 h3 hfail
    simp only [Client.GetDCMIConfigurations, stateBefore, subFetch, h0, h1, h2, h3, hfail]

theorem GetDCMIConfigurations_ok {σ : Type} {A : Type} {B : Type} {C : Type}
    {D : Type} {E : Type}
    (Exchange : ExchangeFn σ GetDCMIConfigParamsRequest GetDCMIConfigParamsResponse)
    (selectorString : Nat → String) (arms : DCMIConfigArms A B C D E) (s : σ)
    (hok : ∀ i, i < 5 →
      (subFetch Exchange selectorString arms i
        (stateBefore Exchange selectorString arms i s)).2 = none) :
    Client.GetDCMIConfigurations Exchange selectorString arms s =
      (stateBefore Exchange selectorString arms 5 s,
        some
          { ActivateDHCP :=
              (Client.GetDCMIConfigParamsFor Exchange selectorString arms.ActivateDHCP
                (stateBefore Exchange selectorString arms 0 s) arms.ActivateDHCP.zero).2.1
            DiscoveryConfiguration :=
              (Client.GetDCMIConfigParamsFor Exchange selectorString
                arms.DiscoveryConfiguration
                (stateBefore Exchange selectorString arms 1 s)
                arms.DiscoveryConfiguration.zero).2.1
            DHCPTiming1 :=
              (Client.GetDCMIConfigParamsFor Exchange selectorString arms.DHCPTiming1
                (stateBefore Exchange selectorString arms 2 s) arms.DHCPTiming1.zero).2.1
            DHCPTiming2 :=
              (Client.GetDCMIConfigParamsFor Exchange selectorString arms.DHCPTiming2
                (stateBefore Exchange selectorString arms 3 s) arms.DHCPTiming2.zero).2.1
            DHCPTiming3 :=
              (Client.GetDCMIConfigParamsFor Exchange selectorString arms.DHCPTiming3
                (stateBefore Exchange selectorString arms 4 s) arms.DHCPTiming3.zero).2.1 },
        none) := by
  have h0 := hok 0 (by decide)
  have h1 := hok 1 (by decide)
  have h2 := hok 2 (by decide)
  have h3 := hok 3 (by decide)
  have h4 := hok 4 (by decide)
  simp only [stateBefore, subFetch] at h0 h1 h2 h3 h4
  simp only [Client.GetDCMIConfigurations, stateBefore, subFetch, h0, h1, h2, h3, h4]

/-- C11: when the first `k - 1` sub-fetches of `GetDCMIConfigurations` succeed and the
`k`-th (1 ≤ k ≤ 5) fails with error `e`, the result is `(nil, e)`, and the requests handed
to the transport are exactly those of the first `k` sub-fetches: nothing is issued after
the `k`-th. -/
theorem C11_aggregate_fail_fast {σ : Type} {A : Type} {B : Type} {C : Type} {D : Type}
    {E : Type}
    (Exchange : ExchangeFn σ GetDCMIConfigParamsRequest GetDCMIConfigParamsResponse)
    (selectorString : Nat → String) (arms : DCMIConfigArms A B C D E) (s : σ) (k : Nat)
    (e : GoError) (hk1 : 1 ≤ k) (hk5 : k ≤ 5)
    (hok : ∀ i, i < k - 1 →
      (subFetch Exchange selectorString arms i
        (stateBefore Exchange selectorString arms i s)).2 = none)
    (hfail : (subFetch Exchange selectorString arms (k - 1)
        (stateBefore Exchange selectorString arms (k - 1) s)).2 = some e) :
    (Client.GetDCMIConfigurations Exchange selectorString arms s).2 = (none, some e) ∧
    (Client.GetDCMIConfigurations (withLog Exchange) selectorString arms (s, [])).1.2 =
      (List.range k).map (subRequest arms) := by
  constructor
  · rw [GetDCMIConfigurations_failed Exchange selectorString arms s k e hk1 hk5 hok hfail]
  · have hok2 : ∀ i, i < k - 1 →
        (subFetch (withLog Exchange) selectorString arms i
          (stateBefore (withLog Exchange) selectorString arms i (s, []))).2 = none := by
      intro i hi
      rw [stateBefore_withLog, subFetch_withLog]
      exact hok i hi
    have hfail2 : (subFetch (withLog Exchange) selectorString arms (k - 1)
          (stateBefore (withLog Exchange) selectorString arms (k - 1) (s, []))).2
          = some e := by
      rw [stateBefore_withLog, subFetch_withLog]
      exact hfail
    rw [GetDCMIConfigurations_failed (withLog Exchange) selectorString arms (s, []) k e
      hk1 hk5 hok2 hfail2, stateBefore_withLog]

/-- C11 on the example transport whose third exchange fails with the external error 7:
the result is `(nil, that error)` and exactly the requests with selectors 1, 2, 3 were
issued. -/
theorem C11_aggregate_fail_fast_witness :
    (1 ≤ 3 ∧ 3 ≤ 5) ∧
    (∀ i, i < 3 - 1 →
      (subFetch (exampleExchange 3 0) exampleSelectorString exampleArms i
        (stateBefore (exampleExchange 3 0) exampleSelectorString exampleArms i 0)).2
        = none) ∧
    (subFetch (exampleExchange 3 0) exampleSelectorString exampleArms (3 - 1)
        (stateBefore (exampleExchange 3 0) exampleSelectorString exampleArms (3 - 1) 0)).2
      = some (GoError.external 7) ∧
    (Client.GetDCMIConfigurations (exampleExchange 3 0) exampleSelectorString exampleArms
        0).2 = (none, some (GoError.external 7)) ∧
    (Client.GetDCMIConfigurations (withLog (exampleExchange 3 0)) exampleSelectorString
        exampleArms (0, [])).1.2 =
      [{ ParamSelector := 1, SetSelector := 0 }, { ParamSelector := 2, SetSelector := 0 },
       { ParamSelector := 3, SetSelector := 0 }] :=
  ⟨by decide, by intro i hi; interval_cases i <;> rfl, rfl,
   C11_aggregate_fail_fast (exampleExchange 3 0) exampleSelectorString exampleArms 0 3
    (GoError.external 7) (by decide) (by decide)
    (by intro i hi; interval_cases i <;> rfl) rfl⟩

/-- C12: when all five sub-fetches succeed, `GetDCMIConfigurations` hands exactly five
requests to the transport, those of ActivateDHCP, DiscoveryConfiguration, DHCPTiming1,
DHCPTiming2, DHCPTiming3 in this order, and returns no error and a non-nil `DCMIConfig`
whose five fields are the parameter values left by the corresponding fetches. -/
theorem C12_aggregate_success {σ : Type} {A : Type} {B : Type} {C : Type} {D : Type}
    {E : Type}
    (Exchange : ExchangeFn σ GetDCMIConfigParamsRequest GetDCMIConfigParamsResponse)
    (selectorString : Nat → String) (arms : DCMIConfigArms A B C D E) (s : σ)
    (hok : ∀ i, i < 5 →
      (subFetch Exchange selectorString arms i
        (stateBefore Exchange selectorString arms i s)).2 = none) :
    (Client.GetDCMIConfigurations Exchange selectorString arms s).2 =
      (some
          { ActivateDHCP :=
              (Client.GetDCMIConfigParamsFor Exchange selectorString arms.ActivateDHCP
                (stateBefore Exchange selectorString arms 0 s) arms.ActivateDHCP.zero).2.1
            DiscoveryConfiguration :=
              (Client.GetDCMIConfigParamsFor Exchange selectorString
                arms.DiscoveryConfiguration
                (stateBefore Exchange selectorString arms 1 s)
                arms.DiscoveryConfiguration.zero).2.1
            DHCPTiming1 :=
              (Client.GetDCMIConfigParamsFor Exchange selectorString arms.DHCPTiming1
                (stateBefore Exchange selectorString arms 2 s) arms.DHCPTiming1.zero).2.1
            DHCPTiming2 :=
              (Client.GetDCMIConfigParamsFor Exchange selectorString arms.DHCPTiming2
                (stateBefore Exchange selectorString arms 3 s) arms.DHCPTiming2.zero).2.1
            DHCPTiming3 :=
              (Client.GetDCMIConfigParamsFor Exchange selectorString arms.DHCPTiming3
                (stateBefore Exchange selectorString arms 4 s) arms.DHCPTiming3.zero).2.1 },
        none) ∧
    (Client.GetDCMIConfigurations (withLog Exchange) selectorString arms (s, [])).1.2 =
      [armRequest arms.ActivateDHCP arms.ActivateDHCP.zero,
       armRequest arms.DiscoveryConfiguration arms.DiscoveryConfiguration.zero,
       armRequest arms.DHCPTiming1 arms.DHCPTiming1.zero,
       armRequest arms.DHCPTiming2 arms.DHCPTiming2.zero,
       armRequest arms.DHCPTiming3 arms.DHCPTiming3.zero] := by
  constructor
  · rw [GetDCMIConfigurations_ok Exchange selectorString arms s hok]
  · have hok2 : ∀ i, i < 5 →
        (subFetch (withLog Exchange) selectorString arms i
          (stateBefore (withLog Exchange) selectorString arms i (s, []))).2 = none := by
      intro i hi
      rw [stateBefore_withLog, subFetch_withLog]
      exact hok i hi
    rw [GetDCMIConfigurations_ok (withLog Exchange) selectorString arms (s, []) hok2,
      stateBefore_withLog]
    rfl

/-- C12 on the example transport without failure: the composite value holds the five
decoded payloads and the requests with selectors 1 to 5 were issued in this order. -/
theorem C12_aggregate_success_witness :
    (∀ i, i < 5 →
      (subFetch (exampleExchange 0 0) exampleSelectorString exampleArms i
        (stateBefore (exampleExchange 0 0) exampleSelectorString exampleArms i 0)).2
        = none) ∧
    (Client.GetDCMIConfigurations (exampleExchange 0 0) exampleSelectorString exampleArms
        0).2 =
      (some { ActivateDHCP := [1, 0], DiscoveryConfiguration := [2, 0],
              DHCPTiming1 := [3, 0], DHCPTiming2 := [4, 0], DHCPTiming3 := [5, 0] },
       none) ∧
    (Client.GetDCMIConfigurations (withLog (exampleExchange 0 0)) exampleSelectorString
        exampleArms (0, [])).1.2 =
      [{ ParamSelector := 1, SetSelector := 0 }, { ParamSelector := 2, SetSelector := 0 },
       { ParamSelector := 3, SetSelector := 0 }, { ParamSelector := 4, SetSelector := 0 },
       { ParamSelector := 5, SetSelector := 0 }] :=
  ⟨by intro i hi; interval_cases i <;> rfl,
   C12_aggregate_success (exampleExchange 0 0) exampleSelectorString exampleArms 0
    (by intro i hi; interval_cases i <;> rfl)⟩

/-- C13: `GetDCMIConfigParamsFor` hands the transport exactly one request, the one with
the (parameter selector, set selector) pair reported by the arm; when the exchange
succeeds and the arm's `Unpack` of the response's `ParamData` fails with `e`, the result
is an error that wraps `e` and carries the selector's name and number; when the arm's
`Unpack` succeeds the result is no error. -/
theorem C13_get_param_for {σ : Type} {α : Type}
    (Exchange : ExchangeFn σ GetDCMIConfigParamsRequest GetDCMIConfigParamsResponse)
    (selectorString : Nat → String) (I : DCMIConfigParameter α) (s : σ) (param : α) :
    (Client.GetDCMIConfigParamsFor (withLog Exchange) selectorString I (s, []) param).1.2 =
      [{ ParamSelector := (I.DCMIConfigParameter param).1
         SetSelector := (I.DCMIConfigParameter param).2 }] ∧
    (∀ e,
      (Exchange s (armRequest I param) GetDCMIConfigParamsResponse.zero).2.2 = none →
      (I.Unpack param
        (Exchange s (armRequest I param) GetDCMIConfigParamsResponse.zero).2.1.ParamData).2
        = some e →
      (Client.GetDCMIConfigParamsFor Exchange selectorString I s param).2.2 =
          some (GoError.ErrorfW unpackParamFailedFormat
            (selectorString (I.DCMIConfigParameter param).1)
            (I.DCMIConfigParameter param).1 e) ∧
      (Client.GetDCMIConfigParamsFor Exchange selectorString I s param).2.2.bind
          GoError.Unwrap = some e) ∧
    ((Exchange s (armRequest I param) GetDCMIConfigParamsResponse.zero).2.2 = none →
      (I.Unpack param
        (Exchange s (armRequest I param) GetDCMIConfigParamsResponse.zero).2.1.ParamData).2
        = none →
      (Client.GetDCMIConfigParamsFor Exchange selectorString I s param).2.2 = none) := by
  refine ⟨?_, ?_, ?_⟩
  · rw [For_withLog]
    rfl
  · intro e h hu
    rw [For_unpack_failed Exchange selectorString I s param e h hu]
    exact ⟨rfl, rfl⟩
  · intro h hu
    rw [For_unpack_ok Exchange selectorString I s param h hu]

/-- C13 on the example transport: with a one-byte payload the decoder of the example
parameter with selector 3 fails with the external error 9 and the result wraps it with
the name and number of selector 3; with a two-byte payload the result is no error. -/
theorem C13_get_param_for_witness :
    (Client.GetDCMIConfigParamsFor (withLog (exampleExchange 0 1)) exampleSelectorString
        (exampleArm 3) (0, []) []).1.2 = [{ ParamSelector := 3, SetSelector := 0 }] ∧
    (Client.GetDCMIConfigParamsFor (exampleExchange 0 1) exampleSelectorString
        (exampleArm 3) 0 []).2.2 =
      some (GoError.ErrorfW unpackParamFailedFormat "DHCPTiming1" 3 (GoError.external 9)) ∧
    (Client.GetDCMIConfigParamsFor (exampleExchange 0 0) exampleSelectorString
        (exampleArm 3) 0 []).2.2 = none :=
  ⟨(C13_get_param_for (exampleExchange 0 1) exampleSelectorString (exampleArm 3) 0 []).1,
   ((C13_get_param_for (exampleExchange 0 1) exampleSelectorString (exampleArm 3) 0
      []).2.1 (GoError.external 9) rfl rfl).1,
   (C13_get_param_for (exampleExchange 0 0) exampleSelectorString (exampleArm 3) 0
      []).2.2 rfl rfl⟩

theorem subFetch_exchange_failed {σ : Type} {A : Type} {B : Type} {C : Type} {D : Type}
    {E : Type}
    (Exchange : ExchangeFn σ GetDCMIConfigParamsRequest GetDCMIConfigParamsResponse)
    (selectorString : Nat → String) (arms : DCMIConfigArms A B C D E) (i : Nat) (s : σ)
    (e : GoError)
    (h : (Exchange s (subRequest arms i) GetDCMIConfigParamsResponse.zero).2.2 = some e) :
    (subFetch Exchange selectorString arms i s).2 = some e := by
  rcases i with _ | _ | _ | _ | i
  · exact congrArg (fun r => r.2.2) (For_exchange_failed Exchange selectorString _ s _ e h)
  · exact congrArg (fun r => r.2.2) (For_exchange_failed Exchange selectorString _ s _ e h)
  · exact congrArg (fun r => r.2.2) (For_exchange_failed Exchange selectorString _ s _ e h)
  · exact congrArg (fun r => r.2.2) (For_exchange_failed Exchange selectorString _ s _ e h)
  · exact congrArg (fun r => r.2.2) (For_exchange_failed Exchange selectorString _ s _ e h)

theorem subFetch_unpack_failed {σ : Type} {A : Type} {B : Type} {C : Type} {D : Type}
    {E : Type}
    (Exchange : ExchangeFn σ GetDCMIConfigParamsRequest GetDCMIConfigParamsResponse)
    (selectorString : Nat → String) (arms : DCMIConfigArms A B C D E) (i : Nat) (s : σ)
    (e : GoError)
    (h : (Exchange s (subRequest arms i) GetDCMIConfigParamsResponse.zero).2.2 = none)
    (hu : subUnpackError arms i
      (Exchange s (subRequest arms i) GetDCMIConfigParamsResponse.zero).2.1.ParamData
        = some e) :
    (subFetch Exchange selectorString arms i s).2 =
      some (GoError.ErrorfW unpackParamFailedFormat
        (selectorString (subRequest arms i).ParamSelector)
        (subRequest arms i).ParamSelector e) := by
  rcases i with _ | _ | _ | _ | i
  · exact congrArg (fun r => r.2.2)
      (For_unpack_failed Exchange selectorString _ s _ e h hu)
  · exact congrArg (fun r => r.2.2)
      (For_unpack_failed Exchange selectorString _ s _ e h hu)
  · exact congrArg (fun r => r.2.2)
      (For_unpack_failed Exchange selectorString _ s _ e h hu)
  · exact congrArg (fun r => r.2.2)
      (For_unpack_failed Exchange selectorString _ s _ e h hu)
  · exact congrArg (fun r => r.2.2)
      (For_unpack_failed Exchange selectorString _ s _ e h hu)

theorem ErrorfS_ne_self (format : String) (e : GoError) : GoError.ErrorfS format e ≠ e := by
  intro h
  have hs := congrArg sizeOf h
  simp only [GoError.ErrorfS.sizeOf_spec] at hs
  omega

theorem ErrorfW_ne_self (format : String) (name : String) (number : Nat) (e : GoError) :
    GoError.ErrorfW format name number e ≠ e := by
  intro h
  have hs := congrArg sizeOf h
  simp only [GoError.ErrorfW.sizeOf_spec] at hs
  omega

/-- C14 fails as stated: on the example transport whose first exchange fails with the
external error 7, the first sub-fetch fails and `GetDCMIConfigurations` returns exactly
that error, which wraps nothing and carries no parameter name. -/
theorem C14_aggregate_error_counterexample :
    (subFetch (exampleExchange 1 0) exampleSelectorString exampleArms 0 0).2
      = some (GoError.external 7) ∧
    (Client.GetDCMIConfigurations (exampleExchange 1 0) exampleSelectorString exampleArms
        0).2.2 = some (GoError.external 7) ∧
    GoError.Unwrap (GoError.external 7) = none ∧
    ¬ ∃ format name number err,
        (Client.GetDCMIConfigurations (exampleExchange 1 0) exampleSelectorString
          exampleArms 0).2.2 = some (GoError.ErrorfW format name number err) := by
  refine ⟨rfl, rfl, rfl, ?_⟩
  rintro ⟨format, name, number, err, h⟩
  have h2 : some (GoError.external 7) = some (GoError.ErrorfW format name number err) := h
  cases h2

/-- C14 (amended): when the first `k - 1` sub-fetches succeed and the `k`-th fails,
`GetDCMIConfigurations` returns the error of that sub-fetch unchanged: the transport's
error itself when the exchange failed, and the decode failure wrapped with the name and
number of the failing parameter's selector when the parameter's `Unpack` failed. -/
theorem C14_aggregate_error {σ : Type} {A : Type} {B : Type} {C : Type} {D : Type}
    {E : Type}
    (Exchange : ExchangeFn σ GetDCMIConfigParamsRequest GetDCMIConfigParamsResponse)
    (selectorString : Nat → String) (arms : DCMIConfigArms A B C D E) (s : σ) (k : Nat)
    (e : GoError) (hk1 : 1 ≤ k) (hk5 : k ≤ 5)
    (hok : ∀ i, i < k - 1 →
      (subFetch Exchange selectorString arms i
        (stateBefore Exchange selectorString arms i s)).2 = none) :
    ((Exchange (stateBefore Exchange selectorString arms (k - 1) s)
        (subRequest arms (k - 1)) GetDCMIConfigParamsResponse.zero).2.2 = some e →
      (Client.GetDCMIConfigurations Exchange selectorString arms s).2 = (none, some e)) ∧
    ((Exchange (stateBefore Exchange selectorString arms (k - 1) s)
        (subRequest arms (k - 1)) GetDCMIConfigParamsResponse.zero).2.2 = none →
      subUnpackError arms (k - 1)
        (Exchange (stateBefore Exchange selectorString arms (k - 1) s)
          (subRequest arms (k - 1)) GetDCMIConfigParamsResponse.zero).2.1.ParamData
        = some e →
      (Client.GetDCMIConfigurations Exchange selectorString arms s).2 =
        (none, some (GoError.ErrorfW unpackParamFailedFormat
          (selectorString (subRequest arms (k - 1)).ParamSelector)
          (subRequest arms (k - 1)).ParamSelector e))) := by
  constructor
  · intro h
    rw [GetDCMIConfigurations_failed Exchange selectorString arms s k e hk1 hk5 hok
      (subFetch_exchange_failed Exchange selectorString arms (k - 1) _ e h)]
  · intro h hu
    rw [GetDCMIConfigurations_failed Exchange selectorString arms s k _ hk1 hk5 hok
      (subFetch_unpack_failed Exchange selectorString arms (k - 1) _ e h hu)]

/-- C14 (amended) on the example transport: a failure of the third exchange comes back as
the bare external error 7; a short payload in the third exchange comes back as the decode
error 9 wrapped with the name and number of selector 3. -/
theorem C14_aggregate_error_witness :
    (1 ≤ 3 ∧ 3 ≤ 5) ∧
    (∀ i, i < 3 - 1 →
      (subFetch (exampleExchange 3 0) exampleSelectorString exampleArms i
        (stateBefore (exampleExchange 3 0) exampleSelectorString exampleArms i 0)).2
        = none) ∧
    (Client.GetDCMIConfigurations (exampleExchange 3 0) exampleSelectorString exampleArms
        0).2 = (none, some (GoError.external 7)) ∧
    (Client.GetDCMIConfigurations (exampleExchange 0 3) exampleSelectorString exampleArms
        0).2 =
      (none, some (GoError.ErrorfW unpackParamFailedFormat "DHCPTiming1" 3
        (GoError.external 9))) :=
  ⟨by decide, by intro i hi; interval_cases i <;> rfl,
   (C14_aggregate_error (exampleExchange 3 0) exampleSelectorString exampleArms 0 3
      (GoError.external 7) (by decide) (by decide)
      (by intro i hi; interval_cases i <;> rfl)).1 rfl,
   (C14_aggregate_error (exampleExchange 0 3) exampleSelectorString exampleArms 0 3
      (GoError.external 9) (by decide) (by decide)
      (by intro i hi; interval_cases i <;> rfl)).2 rfl rfl⟩

/-- C15 fails as stated: on the example transport that fails with the external error 7,
`SetSystemBootOptions` returns that error but `SetBootDevice` returns another error, built
from it with the `%s` verb, which does not wrap it. -/
theorem C15_transport_error_counterexample :
    (Client.SetSystemBootOptions (exampleBootExchange true) 0
        (Client.SetBootDevice.req 5 2 1 true)).2.2 = some (GoError.external 7) ∧
    (Client.SetBootDevice (exampleBootExchange true) 5 0 2 1 true).2 =
      some (GoError.ErrorfS setSystemBootOptionsFailedFormat (GoError.external 7)) ∧
    (Client.SetBootDevice (exampleBootExchange true) 5 0 2 1 true).2
      ≠ some (GoError.external 7) ∧
    (Client.SetBootDevice (exampleBootExchange true) 5 0 2 1 true).2.bind GoError.Unwrap
      = none := by
  decide

/-- C15 (amended): whenever the transport `Exchange` fails with error `e`,
`GetDCMIConfigParams`, `GetDCMIConfigParamsFor`, `GetDCMIConfigurations` (at the failing
sub-fetch), `GetPayloadActivationStatus` and `SetSystemBootOptions` return exactly `e`;
`SetBootDevice` returns the new error `fmt.Errorf("SetSystemBootOptions failed, err: %s",
e)`, which is not `e` and does not wrap it. -/
theorem C15_transport_error {σ : Type}
    (ExchangeD : ExchangeFn σ GetDCMIConfigParamsRequest GetDCMIConfigParamsResponse)
    (ExchangeP : ExchangeFn σ GetPayloadActivationStatusRequest
      GetPayloadActivationStatusResponse)
    (selectorString : Nat → String) (s : σ) (e : GoError) :
    (∀ paramSelector setSelector,
      (ExchangeD s { ParamSelector := paramSelector, SetSelector := setSelector }
        GetDCMIConfigParamsResponse.zero).2.2 = some e →
      (Client.GetDCMIConfigParams ExchangeD s paramSelector setSelector).2.2 = some e) ∧
    (∀ (α : Type) (I : DCMIConfigParameter α) (param : α),
      (ExchangeD s (armRequest I param) GetDCMIConfigParamsResponse.zero).2.2 = some e →
      (Client.GetDCMIConfigParamsFor ExchangeD selectorString I s param).2.2 = some e) ∧
    (∀ (A B C D E : Type) (arms : DCMIConfigArms A B C D E) (k : Nat), 1 ≤ k → k ≤ 5 →
      (∀ i, i < k - 1 →
        (subFetch ExchangeD selectorString arms i
          (stateBefore ExchangeD selectorString arms i s)).2 = none) →
      (ExchangeD (stateBefore ExchangeD selectorString arms (k - 1) s)
        (subRequest arms (k - 1)) GetDCMIConfigParamsResponse.zero).2.2 = some e →
      (Client.GetDCMIConfigurations ExchangeD selectorString arms s).2 = (none, some e)) ∧
    (∀ payloadType,
      (ExchangeP s { PayloadType := payloadType }
        { GetPayloadActivationStatusResponse.zero with PayloadType := payloadType }).2.2
        = some e →
      (Client.GetPayloadActivationStatus ExchangeP s payloadType).2.2 = some e) ∧
    (∀ (P : Type)
      (ExchangeB : ExchangeFn σ (SetSystemBootOptionsRequest P) SetSystemBootOptionsResponse)
      (request : SetSystemBootOptionsRequest P),
      (ExchangeB s request {}).2.2 = some e →
      (Client.SetSystemBootOptions ExchangeB s request).2.2 = some e) ∧
    (∀ (ExchangeB : ExchangeFn σ (SetSystemBootOptionsRequest BootOptionParameter)
        SetSystemBootOptionsResponse)
      (BOPS_BootFlags bootDeviceSelector bootType : Nat) (persist : Bool),
      (ExchangeB s (Client.SetBootDevice.req BOPS_BootFlags bootDeviceSelector bootType
        persist) {}).2.2 = some e →
      (Client.SetBootDevice ExchangeB BOPS_BootFlags s bootDeviceSelector bootType
          persist).2 = some (GoError.ErrorfS setSystemBootOptionsFailedFormat e) ∧
      GoError.ErrorfS setSystemBootOptionsFailedFormat e ≠ e ∧
      GoError.Unwrap (GoError.ErrorfS setSystemBootOptionsFailedFormat e) = none) := by
  refine ⟨?_, ?_, ?_, ?_, ?_, ?_⟩
  · intro paramSelector setSelector h
    exact h
  · intro α I param h
    rw [For_exchange_failed ExchangeD selectorString I s param e h]
  · intro A B C D E arms k hk1 hk5 hok h
    rw [GetDCMIConfigurations_failed ExchangeD selectorString arms s k e hk1 hk5 hok
      (subFetch_exchange_failed ExchangeD selectorString arms (k - 1) _ e h)]
  · intro payloadType h
    exact h
  · intro P ExchangeB request h
    exact h
  · intro ExchangeB BOPS_BootFlags bootDeviceSelector bootType persist h
    refine ⟨?_, ErrorfS_ne_self _ e, rfl⟩
    have h2 : (Client.SetSystemBootOptions ExchangeB s
        (Client.SetBootDevice.req BOPS_BootFlags bootDeviceSelector bootType persist)).2.2
        = some e := h
    simp only [Client.SetBootDevice, h2]

/-- C15 (amended) on the example transports failing with the external error 7: the DCMI
fetch returns that error itself, `SetBootDevice` the error built from it. -/
theorem C15_transport_error_witness :
    (exampleExchange 1 0 0 { ParamSelector := 3, SetSelector := 0 }
        GetDCMIConfigParamsResponse.zero).2.2 = some (GoError.external 7) ∧
    (Client.GetDCMIConfigParams (exampleExchange 1 0) 0 3 0).2.2
      = some (GoError.external 7) ∧
    (Client.SetBootDevice (exampleBootExchange true) 5 0 2 1 true).2 =
      some (GoError.ErrorfS setSystemBootOptionsFailedFormat (GoError.external 7)) :=
  ⟨rfl,
   (C15_transport_error (exampleExchange 1 0) (examplePayloadExchange [])
      exampleSelectorString 0 (GoError.external 7)).1 3 0 rfl,
   ((C15_transport_error (exampleExchange 1 0) (examplePayloadExchange [])
      exampleSelectorString 0 (GoError.external 7)).2.2.2.2.2
      (exampleBootExchange true) 5 2 1 true rfl).1⟩

/-! ### Completion codes, round trip, overwrite and frame -/

/-- C16: the completion-code table of `SetSystemBootOptionsResponse` has exactly the keys
`0x80`, `0x81`, `0x82` with the "parameter not supported", "set in progress" and
"attempt to write read-only parameter" descriptions; looking up any other code (such as
`0x01` or `0x00`) gives nothing; the tables of `GetDCMIConfigParamsResponse` and
`GetPayloadActivationStatusResponse` are empty. -/
theorem C16_completion_code_tables (res : SetSystemBootOptionsResponse)
    (dres : GetDCMIConfigParamsResponse) (pres : GetPayloadActivationStatusResponse) :
    res.CompletionCodes.map Prod.fst = [0x80, 0x81, 0x82] ∧
    res.CompletionCodes.lookup 0x80 = some "parameter not supported" ∧
    res.CompletionCodes.lookup 0x81 = some "attempt to set the 'set in progress' value (in parameter #0) when not in the 'set complete' state. (This completion code provides a way to recognize that another party has already 'claimed' the parameters)" ∧
    res.CompletionCodes.lookup 0x82 = some "attempt to write read-only parameter" ∧
    (∀ code, code ≠ 0x80 → code ≠ 0x81 → code ≠ 0x82 →
      res.CompletionCodes.lookup code = none) ∧
    res.CompletionCodes.lookup 0x01 = none ∧
    res.CompletionCodes.lookup 0x00 = none ∧
    dres.CompletionCodes = [] ∧
    (∀ code, dres.CompletionCodes.lookup code = none) ∧
    pres.CompletionCodes = [] ∧
    (∀ code, pres.CompletionCodes.lookup code = none) := by
  refine ⟨rfl, rfl, rfl, rfl, ?_, rfl, rfl, rfl, fun _ => rfl, rfl, fun _ => rfl⟩
  intro code h0 h1 h2
  have b0 : (code == 0x80) = false := by simpa using h0
  have b1 : (code == 0x81) = false := by simpa using h1
  have b2 : (code == 0x82) = false := by simpa using h2
  simp only [SetSystemBootOptionsResponse.CompletionCodes, List.lookup, b0, b1, b2]

/-- C16 at the unlisted code `0x7F`. -/
theorem C16_completion_code_tables_witness :
    (0x7F : Nat) ≠ 0x80 ∧ (0x7F : Nat) ≠ 0x81 ∧ (0x7F : Nat) ≠ 0x82 ∧
    (SetSystemBootOptionsResponse.CompletionCodes {}).lookup 0x7F = none :=
  ⟨by decide, by decide, by decide,
   (C16_completion_code_tables {} GetDCMIConfigParamsResponse.zero
      GetPayloadActivationStatusResponse.zero).2.2.2.2.1 0x7F (by decide) (by decide)
      (by decide)⟩

theorem flagMask_testBit (f0 f1 f2 f3 f4 f5 f6 f7 : Bool) :
    flagMask [f0, f1, f2, f3, f4, f5, f6, f7] < 256 ∧
    Nat.testBit (flagMask [f0, f1, f2, f3, f4, f5, f6, f7]) 0 = f0 ∧
    Nat.testBit (flagMask [f0, f1, f2, f3, f4, f5, f6, f7]) 1 = f1 ∧
    Nat.testBit (flagMask [f0, f1, f2, f3, f4, f5, f6, f7]) 2 = f2 ∧
    Nat.testBit (flagMask [f0, f1, f2, f3, f4, f5, f6, f7]) 3 = f3 ∧
    Nat.testBit (flagMask [f0, f1, f2, f3, f4, f5, f6, f7]) 4 = f4 ∧
    Nat.testBit (flagMask [f0, f1, f2, f3, f4, f5, f6, f7]) 5 = f5 ∧
    Nat.testBit (flagMask [f0, f1, f2, f3, f4, f5, f6, f7]) 6 = f6 ∧
    Nat.testBit (flagMask [f0, f1, f2, f3, f4, f5, f6, f7]) 7 = f7 := by
  cases f0 <;> cases f1 <;> cases f2 <;> cases f3 <;> cases f4 <;> cases f5 <;>
    cases f6 <;> cases f7 <;> decide

theorem byte_eq_of_testBit (a b : Nat) (ha : a < 256) (hb : b < 256)
    (h : ∀ i, i < 8 → Nat.testBit a i = Nat.testBit b i) : a = b := by
  apply Nat.eq_of_testBit_eq
  intro i
  by_cases hi : i < 8
  · exact h i hi
  · have h8 : (256 : Nat) ≤ 2 ^ i := by
      have : 2 ^ 8 ≤ 2 ^ i := Nat.pow_le_pow_right (by decide) (by omega)
      simpa using this
    rw [Nat.testBit_lt_two_pow (by omega), Nat.testBit_lt_two_pow (by omega)]

theorem Unpack_pas_three (res : GetPayloadActivationStatusResponse) (a0 a1 a2 : Nat) :
    (res.Unpack [a0, a1, a2]).1.InstanceCapacity = (a0 + 1) % 256 ∧
    (res.Unpack [a0, a1, a2]).1.flags =
      [Nat.testBit a1 0, Nat.testBit a1 1, Nat.testBit a1 2, Nat.testBit a1 3,
       Nat.testBit a1 4, Nat.testBit a1 5, Nat.testBit a1 6, Nat.testBit a1 7,
       Nat.testBit a2 0, Nat.testBit a2 1, Nat.testBit a2 2, Nat.testBit a2 3,
       Nat.testBit a2 4, Nat.testBit a2 5, Nat.testBit a2 6, Nat.testBit a2 7] := by
  rw [Unpack_pas_of_len res [a0, a1, a2] (Nat.le_refl 3)]
  exact ⟨rfl, rfl⟩

/-- C17: for every capacity `c` in 1..255 and every 16 flags, decoding the buffer
`[c - 1, mask of flags 1-8, mask of flags 9-16]` gives back capacity `c` and the same 16
flags; two different 3-byte buffers never decode to the same capacity and flags. -/
theorem C17_payload_round_trip (res : GetPayloadActivationStatusResponse) (c : Nat)
    (hc1 : 1 ≤ c) (hc2 : c ≤ 255)
    (f1 f2 f3 f4 f5 f6 f7 f8 f9 f10 f11 f12 f13 f14 f15 f16 : Bool) :
    IsBytes [c - 1, flagMask [f1, f2, f3, f4, f5, f6, f7, f8],
      flagMask [f9, f10, f11, f12, f13, f14, f15, f16]] ∧
    (res.Unpack [c - 1, flagMask [f1, f2, f3, f4, f5, f6, f7, f8],
      flagMask [f9, f10, f11, f12, f13, f14, f15, f16]]).2 = none ∧
    (res.Unpack [c - 1, flagMask [f1, f2, f3, f4, f5, f6, f7, f8],
      flagMask [f9, f10, f11, f12, f13, f14, f15, f16]]).1.InstanceCapacity = c ∧
    (res.Unpack [c - 1, flagMask [f1, f2, f3, f4, f5, f6, f7, f8],
      flagMask [f9, f10, f11, f12, f13, f14, f15, f16]]).1.flags =
      [f1, f2, f3, f4, f5, f6, f7, f8, f9, f10, f11, f12, f13, f14, f15, f16] ∧
    (∀ m1 m2 : List Nat, m1.length = 3 → m2.length = 3 → IsBytes m1 → IsBytes m2 →
      m1 ≠ m2 →
      ¬ ((res.Unpack m1).1.InstanceCapacity = (res.Unpack m2).1.InstanceCapacity ∧
         (res.Unpack m1).1.flags = (res.Unpack m2).1.flags)) := by
  have hA := flagMask_testBit f1 f2 f3 f4 f5 f6 f7 f8
  have hB := flagMask_testBit f9 f10 f11 f12 f13 f14 f15 f16
  refine ⟨?_, ?_, ?_, ?_, ?_⟩
  · intro b hb
    simp only [List.mem_cons, List.mem_singleton, List.not_mem_nil, or_false] at hb
    rcases hb with h | h | h
    · omega
    · rw [h]; exact hA.1
    · rw [h]; exact hB.1
  · rw [Unpack_pas_of_len res [c - 1, flagMask [f1, f2, f3, f4, f5, f6, f7, f8],
      flagMask [f9, f10, f11, f12, f13, f14, f15, f16]] (Nat.le_refl 3)]
  · rw [(Unpack_pas_three res _ _ _).1]
    omega
  · rw [(Unpack_pas_three res _ _ _).2]
    simp only [hA, hB]
  · intro m1 m2 hl1 hl2 hb1 hb2 hne hsame
    apply hne
    match m1, hl1, hb1, hsame with
    | [a0, a1, a2], _, hb1, hsame =>
      match m2, hl2, hb2, hsame with
      | [b0, b1, b2], _, hb2, hsame =>
        have ha0 : a0 < 256 := hb1 a0 (by simp)
        have ha1 : a1 < 256 := hb1 a1 (by simp)
        have ha2 : a2 < 256 := hb1 a2 (by simp)
        have hb0 : b0 < 256 := hb2 b0 (by simp)
        have hb1' : b1 < 256 := hb2 b1 (by simp)
        have hb2' : b2 < 256 := hb2 b2 (by simp)
        rw [(Unpack_pas_three res a0 a1 a2).1, (Unpack_pas_three res a0 a1 a2).2,
          (Unpack_pas_three res b0 b1 b2).1, (Unpack_pas_three res b0 b1 b2).2] at hsame
        obtain ⟨hcap, hfl⟩ := hsame
        simp only [List.cons.injEq, and_true] at hfl
        obtain ⟨g0, g1, g2, g3, g4, g5, g6, g7, k0, k1, k2, k3, k4, k5, k6, k7⟩ := hfl
        have e0 : a0 = b0 := by omega
        have e1 : a1 = b1 := by
          apply byte_eq_of_testBit a1 b1 ha1 hb1'
          intro i hi
          interval_cases i <;> assumption
        have e2 : a2 = b2 := by
          apply byte_eq_of_testBit a2 b2 ha2 hb2'
          intro i hi
          interval_cases i <;> assumption
        rw [e0, e1, e2]

/-- C17 at capacity 16 with the flags of instances 1 and 10 set: the buffer is
`[0x0F, 0x01, 0x02]`. -/
theorem C17_payload_round_trip_witness :
    (1 ≤ 16 ∧ 16 ≤ 255) ∧
    [16 - 1, flagMask [true, false, false, false, false, false, false, false],
      flagMask [false, true, false, false, false, false, false, false]]
      = [0x0F, 0x01, 0x02] ∧
    (GetPayloadActivationStatusResponse.zero.Unpack
      [16 - 1, flagMask [true, false, false, false, false, false, false, false],
        flagMask [false, true, false, false, false, false, false, false]]).1.InstanceCapacity
      = 16 ∧
    (GetPayloadActivationStatusResponse.zero.Unpack
      [16 - 1, flagMask [true, false, false, false, false, false, false, false],
        flagMask [false, true, false, false, false, false, false, false]]).1.flags
      = [true, false, false, false, false, false, false, false,
         false, true, false, false, false, false, false, false] :=
  ⟨by decide, by decide,
   (C17_payload_round_trip GetPayloadActivationStatusResponse.zero 16 (by decide)
      (by decide) true false false false false false false false
      false true false false false false false false).2.2.1,
   (C17_payload_round_trip GetPayloadActivationStatusResponse.zero 16 (by decide)
      (by decide) true false false false false false false false
      false true false false false false false false).2.2.2.1⟩

theorem getD_take_three (m : List Nat) (i : Nat) (hi : i < 3) :
    (m.take 3).getD i 0 = m.getD i 0 := by
  simp [List.getD_eq_getElem?_getD, List.getElem?_take, hi]

theorem Unpack_pas_take_three (res : GetPayloadActivationStatusResponse) (m1 m2 : List Nat)
    (h : m1.take 3 = m2.take 3) : res.Unpack m1 = res.Unpack m2 := by
  by_cases h1 : m1.length < 3
  · have e1 : m1.take 3 = m1 := List.take_of_length_le (by omega)
    have hl : (m2.take 3).length = m1.length := by rw [← h, e1]
    rw [List.length_take] at hl
    have e2 : m2.take 3 = m2 := List.take_of_length_le (by omega)
    rw [e1, e2] at h
    rw [h]
  · have hl : (m1.take 3).length = (m2.take 3).length := by rw [h]
    rw [List.length_take, List.length_take] at hl
    have g1 : 3 ≤ m1.length := by omega
    have g2 : 3 ≤ m2.length := by omega
    rw [Unpack_pas_of_len res m1 g1, Unpack_pas_of_len res m2 g2,
      ← getD_take_three m1 0 (by decide), ← getD_take_three m1 1 (by decide),
      ← getD_take_three m1 2 (by decide), ← getD_take_three m2 0 (by decide),
      ← getD_take_three m2 1 (by decide), ← getD_take_three m2 2 (by decide), h]

theorem Unpack_pas_PayloadType (res : GetPayloadActivationStatusResponse) (msg : List Nat) :
    (res.Unpack msg).1.PayloadType = res.PayloadType := by
  by_cases h : msg.length < 3
  · simp only [GetPayloadActivationStatusResponse.Unpack, h, if_true]
  · rw [Unpack_pas_of_len res msg (by omega)]

/-- C18: a second successful decode overwrites the first.  For valid buffers, decoding
`m1` and then `m2` into the same `GetDCMIConfigParamsResponse` leaves what decoding `m2`
into a fresh response leaves, and the result does not depend on the response decoded
into; the same holds for the capacity and the 16 flags of
`GetPayloadActivationStatusResponse` with valid buffers `n1`, `n2`. -/
theorem C18_second_decode_overwrites (tag : Nat) (dres : GetDCMIConfigParamsResponse)
    (pres : GetPayloadActivationStatusResponse) (m1 m2 n1 n2 : List Nat)
    (h1 : 5 ≤ m1.length) (t1 : m1.getD 0 0 = tag) (h2 : 5 ≤ m2.length)
    (t2 : m2.getD 0 0 = tag) (g1 : 3 ≤ n1.length) (g2 : 3 ≤ n2.length) :
    (dres.Unpack tag m1).2 = none ∧
    (dres.Unpack tag m1).1.Unpack tag m2 = GetDCMIConfigParamsResponse.zero.Unpack tag m2 ∧
    (∀ other : GetDCMIConfigParamsResponse, other.Unpack tag m2 = dres.Unpack tag m2) ∧
    (pres.Unpack n1).2 = none ∧
    ((pres.Unpack n1).1.Unpack n2).1.InstanceCapacity =
      (GetPayloadActivationStatusResponse.zero.Unpack n2).1.InstanceCapacity ∧
    ((pres.Unpack n1).1.Unpack n2).1.flags =
      (GetPayloadActivationStatusResponse.zero.Unpack n2).1.flags ∧
    (∀ other : GetPayloadActivationStatusResponse,
      (other.Unpack n2).1.InstanceCapacity = (pres.Unpack n2).1.InstanceCapacity ∧
      (other.Unpack n2).1.flags = (pres.Unpack n2).1.flags) := by
  refine ⟨?_, ?_, ?_, ?_, ?_, ?_, ?_⟩
  · rw [Unpack_dcmi_of_match tag dres m1 h1 t1]
  · rw [Unpack_dcmi_of_match tag _ m2 h2 t2, Unpack_dcmi_of_match tag _ m2 h2 t2]
  · intro other
    rw [Unpack_dcmi_of_match tag _ m2 h2 t2, Unpack_dcmi_of_match tag _ m2 h2 t2]
  · rw [Unpack_pas_of_len pres n1 g1]
  · rw [Unpack_pas_of_len _ n2 g2, Unpack_pas_of_len _ n2 g2]
  · rw [Unpack_pas_of_len _ n2 g2, Unpack_pas_of_len _ n2 g2]
    rfl
  · intro other
    rw [Unpack_pas_of_len _ n2 g2, Unpack_pas_of_len _ n2 g2]
    exact ⟨rfl, rfl⟩

/-- C18 at tag `0xDC` with the DCMI buffers `[0xDC, 1, 5, 2, 0xAA]`, `[0xDC, 1, 5, 3, 0xBB,
0xCC]` and the payload-status buffers `[0x00, 0xFF, 0x00]`, `[0x0F, 0x01, 0x80]`. -/
theorem C18_second_decode_overwrites_witness :
    (5 ≤ [0xDC, 1, 5, 2, 0xAA].length ∧ [0xDC, 1, 5, 2, 0xAA].getD 0 0 = 0xDC ∧
      5 ≤ [0xDC, 1, 5, 3, 0xBB, 0xCC].length ∧ [0xDC, 1, 5, 3, 0xBB, 0xCC].getD 0 0 = 0xDC ∧
      3 ≤ [0x00, 0xFF, 0x00].length ∧ 3 ≤ [0x0F, 0x01, 0x80].length) ∧
    (GetDCMIConfigParamsResponse.zero.Unpack 0xDC [0xDC, 1, 5, 2, 0xAA]).1.Unpack 0xDC
        [0xDC, 1, 5, 3, 0xBB, 0xCC] =
      GetDCMIConfigParamsResponse.zero.Unpack 0xDC [0xDC, 1, 5, 3, 0xBB, 0xCC] ∧
    ((GetPayloadActivationStatusResponse.zero.Unpack [0x00, 0xFF, 0x00]).1.Unpack
        [0x0F, 0x01, 0x80]).1.flags =
      (GetPayloadActivationStatusResponse.zero.Unpack [0x0F, 0x01, 0x80]).1.flags :=
  ⟨by decide,
   (C18_second_decode_overwrites 0xDC GetDCMIConfigParamsResponse.zero
      GetPayloadActivationStatusResponse.zero [0xDC, 1, 5, 2, 0xAA]
      [0xDC, 1, 5, 3, 0xBB, 0xCC] [0x00, 0xFF, 0x00] [0x0F, 0x01, 0x80]
      (by decide) (by decide) (by decide) (by decide) (by decide) (by decide)).2.1,
   (C18_second_decode_overwrites 0xDC GetDCMIConfigParamsResponse.zero
      GetPayloadActivationStatusResponse.zero [0xDC, 1, 5, 2, 0xAA]
      [0xDC, 1, 5, 3, 0xBB, 0xCC] [0x00, 0xFF, 0x00] [0x0F, 0x01, 0x80]
      (by decide) (by decide) (by decide) (by decide) (by decide) (by decide)).2.2.2.2.2.1⟩

/-- C19: `Unpack` never changes the `PayloadType` of the response, on success or on
failure, and reads only bytes 0-2 (buffers that agree on their first three bytes decode
alike); hence, for every transport that changes the response only through its `Unpack`,
the response returned by `GetPayloadActivationStatus` carries the payload type given in
the request. -/
theorem C19_payload_type_frame (res : GetPayloadActivationStatusResponse) (msg : List Nat) :
    (res.Unpack msg).1.PayloadType = res.PayloadType ∧
    (∀ m2 : List Nat, msg.take 3 = m2.take 3 → res.Unpack msg = res.Unpack m2) ∧
    (∀ (σ : Type)
      (Exchange : ExchangeFn σ GetPayloadActivationStatusRequest
        GetPayloadActivationStatusResponse) (s : σ) (payloadType : Nat),
      (∀ s1 request response,
        (Exchange s1 request response).2.1 = response ∨
        ∃ m, (Exchange s1 request response).2.1 = (response.Unpack m).1) →
      (Client.GetPayloadActivationStatus Exchange s payloadType).2.1.PayloadType
        = payloadType) := by
  refine ⟨Unpack_pas_PayloadType res msg, ?_, ?_⟩
  · intro m2 h
    exact Unpack_pas_take_three res msg m2 h
  · intro σ Exchange s payloadType hEx
    simp only [Client.GetPayloadActivationStatus]
    rcases hEx s { PayloadType := payloadType }
      { GetPayloadActivationStatusResponse.zero with PayloadType := payloadType }
      with h | ⟨m, h⟩
    · rw [h]
    · rw [h, Unpack_pas_PayloadType]

/-- C19 at the buffers `[0x03, 0xFF, 0x00, 0x55]` and `[0x03, 0xFF, 0x00]`, a response
holding payload type 1, and the example transport that decodes `[0x03, 0xFF, 0x00]`. -/
theorem C19_payload_type_frame_witness :
    [0x03, 0xFF, 0x00, 0x55].take 3 = [0x03, 0xFF, 0x00].take 3 ∧
    (GetPayloadActivationStatusResponse.Unpack
        { GetPayloadActivationStatusResponse.zero with PayloadType := 1 }
        [0x03, 0xFF, 0x00, 0x55]).1.PayloadType = 1 ∧
    GetPayloadActivationStatusResponse.Unpack
        { GetPayloadActivationStatusResponse.zero with PayloadType := 1 }
        [0x03, 0xFF, 0x00, 0x55] =
      GetPayloadActivationStatusResponse.Unpack
        { GetPayloadActivationStatusResponse.zero with PayloadType := 1 }
        [0x03, 0xFF, 0x00] ∧
    (∀ s1 request response,
      (examplePayloadExchange [0x03, 0xFF, 0x00] s1 request response).2.1 = response ∨
      ∃ m, (examplePayloadExchange [0x03, 0xFF, 0x00] s1 request response).2.1
        = (response.Unpack m).1) ∧
    (Client.GetPayloadActivationStatus (examplePayloadExchange [0x03, 0xFF, 0x00]) 0
        1).2.1.PayloadType = 1 :=
  ⟨by decide,
   (C19_payload_type_frame
      { GetPayloadActivationStatusResponse.zero with PayloadType := 1 }
      [0x03, 0xFF, 0x00, 0x55]).1,
   (C19_payload_type_frame
      { GetPayloadActivationStatusResponse.zero with PayloadType := 1 }
      [0x03, 0xFF, 0x00, 0x55]).2.1 [0x03, 0xFF, 0x00] (by decide),
   fun _ _ response => Or.inr ⟨[0x03, 0xFF, 0x00], rfl⟩,
   (C19_payload_type_frame
      { GetPayloadActivationStatusResponse.zero with PayloadType := 1 }
      [0x03, 0xFF, 0x00, 0x55]).2.2 Nat (examplePayloadExchange [0x03, 0xFF, 0x00]) 0 1
      (fun _ _ response => Or.inr ⟨[0x03, 0xFF, 0x00], rfl⟩)⟩

/-- C20: whenever `GetDCMIConfigParamsResponse.Unpack` succeeds on `msg`, the decoded
`ParamData` has length `len(msg) - 4` and is not empty; the 4-byte buffer made of the
correct tag and the three version/revision bytes is rejected with the too-short error
(actual 4, required 5). -/
theorem C20_param_data_nonempty (tag : Nat) (res : GetDCMIConfigParamsResponse)
    (msg : List Nat) (h : (res.Unpack tag msg).2 = none) :
    (res.Unpack tag msg).1.ParamData.length = msg.length - 4 ∧
    (res.Unpack tag msg).1.ParamData ≠ [] ∧
    5 ≤ msg.length ∧
    (∀ major minor revision,
      res.Unpack tag [tag, major, minor, revision] =
        (res, some (Error.UnpackedDataTooShort 4 5))) := by
  have hlen : 5 ≤ msg.length := by
    by_cases hl : msg.length < 5
    · simp [GetDCMIConfigParamsResponse.Unpack, hl] at h
    · omega
  have htag : msg.getD 0 0 = tag := by
    by_cases ht : msg.getD 0 0 = tag
    · exact ht
    · have hne : msg.getD 0 0 ≠ tag := ht
      have h5 : ¬ msg.length < 5 := by omega
      simp only [GetDCMIConfigParamsResponse.Unpack, h5, if_false,
        CheckDCMIGroupExenstionMatch, hne, ne_eq, not_false_eq_true, if_true] at h
      cases h
  rw [Unpack_dcmi_of_match tag res msg hlen htag]
  refine ⟨?_, ?_, hlen, ?_⟩
  · simp
  · intro hnil
    have hz : (msg.drop 4).length = 0 := by
      have : msg.drop 4 = [] := hnil
      rw [this]
      rfl
    rw [List.length_drop] at hz
    omega
  · intro major minor revision
    rfl

/-- C20 at tag `0xDC` and the buffer `[0xDC, 1, 5, 2, 0xAA, 0xBB]`, and at the 4-byte
buffer `[0xDC, 1, 5, 2]`. -/
theorem C20_param_data_nonempty_witness :
    (GetDCMIConfigParamsResponse.zero.Unpack 0xDC [0xDC, 1, 5, 2, 0xAA, 0xBB]).2 = none ∧
    (GetDCMIConfigParamsResponse.zero.Unpack 0xDC
      [0xDC, 1, 5, 2, 0xAA, 0xBB]).1.ParamData.length = [0xDC, 1, 5, 2, 0xAA, 0xBB].length - 4 ∧
    GetDCMIConfigParamsResponse.zero.Unpack 0xDC [0xDC, 1, 5, 2] =
      (GetDCMIConfigParamsResponse.zero, some (Error.UnpackedDataTooShort 4 5)) :=
  ⟨by decide,
   (C20_param_data_nonempty 0xDC GetDCMIConfigParamsResponse.zero
      [0xDC, 1, 5, 2, 0xAA, 0xBB] (by decide)).1,
   (C20_param_data_nonempty 0xDC GetDCMIConfigParamsResponse.zero
      [0xDC, 1, 5, 2, 0xAA, 0xBB] (by decide)).2.2.2 1 5 2⟩

end ipmi
